import Mathlib

/-
  Verification development for the multi-provider LLM usage-cost engine of the
  service-modules repository: model registries, alias resolution and the four
  provider cost calculators (Anthropic, OpenAI, Google, Perplexity).

  Conventions of the shallow embedding:
  * JS numbers are modelled as exact rationals (ℚ); `Math.round(x*1e6)/1e6`
    becomes `round6`.
  * A usage field that may be absent or non-numeric at runtime
    (`typeof x !== "number"`) is modelled as `Option ℚ`; `none` covers both the
    absent and the non-numeric case.
  * JS truthiness of an optional numeric field (`if (usage.cache_hits)`) is
    `truthy`: present and non-zero.  `x ?? 0` and `x || 0` on numbers are both
    `orZero`.
  * A function that can `throw` returns `Except` with a structured error value
    carrying exactly the data interpolated into the thrown message.
-/

namespace SilbaCost

/-- JS `Math.round(q * 1000000) / 1000000` (round half toward +infinity),
used by the calculators to round dollar amounts to 6 decimal places. -/
def round6 (q : ℚ) : ℚ := (⌊q * 1000000 + 1/2⌋ : ℚ) / 1000000

/-- Decidable equality for `Except`, used to state concrete evaluations of the
fallible operations. -/
instance {e a : Type} [DecidableEq e] [DecidableEq a] : DecidableEq (Except e a) := fun x y =>
  match x, y with
  | .ok v, .ok w =>
    match decEq v w with
    | isTrue h => isTrue (h ▸ rfl)
    | isFalse h => isFalse (fun q => h (Except.ok.inj q))
  | .error v, .error w =>
    match decEq v w with
    | isTrue h => isTrue (h ▸ rfl)
    | isFalse h => isFalse (fun q => h (Except.error.inj q))
  | .ok _, .error _ => isFalse (fun q => Except.noConfusion q)
  | .error _, .ok _ => isFalse (fun q => Except.noConfusion q)

/-- JS truthiness of an optional numeric field: present and non-zero. -/
def truthy (o : Option ℚ) : Bool :=
  match o with
  | none => false
  | some q => if q = 0 then false else true

/-- JS `x ?? 0` / `x || 0` on an optional numeric field. -/
def orZero (o : Option ℚ) : ℚ := o.getD 0

/-- JS `String.prototype.toLowerCase` restricted to the ASCII model names that
occur in this code base. -/
def jsToLower (s : String) : String := String.mk (s.data.map Char.toLower)

/-- JS `String.prototype.startsWith`. -/
def jsStartsWith (s p : String) : Bool := s.data.take p.data.length == p.data

/-- Payload of the unknown-model errors thrown by the registry find functions:
the attempted name and the list of valid ids interpolated into the message
`Unknown <provider> model: <name>. Available: <ids>`. -/
structure UnknownModelError where
  attempted : String
  available : List String
deriving Repr, DecidableEq

/-! ## Anthropic pricing types (src/lib/models/types.ts) -/

/-- `AnthropicFlatPricing` (`tiered: false`). -/
structure AnthropicFlatPricing where
  inputBase : ℚ
  output : ℚ
  cacheWrite : ℚ
  cacheRead : ℚ
  batchInput : ℚ
  batchOutput : ℚ
deriving Repr, DecidableEq

/-- `AnthropicTieredPricing` (`tiered: true`). -/
structure AnthropicTieredPricing where
  inputBase : ℚ
  inputBaseOver200k : ℚ
  output : ℚ
  outputOver200k : ℚ
  cacheWrite : ℚ
  cacheWriteOver200k : ℚ
  cacheRead : ℚ
  cacheReadOver200k : ℚ
  batchInput : ℚ
  batchOutput : ℚ
deriving Repr, DecidableEq

/-- `AnthropicPricing = AnthropicFlatPricing | AnthropicTieredPricing`,
a tagged union on the `tiered` flag. -/
inductive AnthropicPricing
  | flat (p : AnthropicFlatPricing)
  | tiered (p : AnthropicTieredPricing)
deriving Repr, DecidableEq

/-- `pricing.batchInput` (present in both variants). -/
def AnthropicPricing.batchInput : AnthropicPricing → ℚ
  | .flat p => p.batchInput
  | .tiered p => p.batchInput

/-- `pricing.batchOutput` (present in both variants). -/
def AnthropicPricing.batchOutput : AnthropicPricing → ℚ
  | .flat p => p.batchOutput
  | .tiered p => p.batchOutput

/-! ## Anthropic model registry (src, models/anthropic.ts) -/

/-- `AnthropicModelEntry`. -/
structure AnthropicModelEntry where
  id : String
  displayName : String
  supportsVision : Bool
  pricing : AnthropicPricing
deriving Repr, DecidableEq

/-- `ANTHROPIC_MODEL_IDS`. -/
def ANTHROPIC_MODEL_IDS : List String :=
  ["claude-opus-4-6", "claude-sonnet-4-6", "claude-haiku-4-5-20251001"]

/-- `ANTHROPIC_MODELS`. -/
def ANTHROPIC_MODELS : List AnthropicModelEntry :=
  [ { id := "claude-opus-4-6"
    , displayName := "Claude Opus 4.6"
    , supportsVision := true
    , pricing := .tiered
        { inputBase := 5.0, inputBaseOver200k := 10.0
        , output := 25.0, outputOver200k := 37.50
        , cacheWrite := 6.25, cacheWriteOver200k := 12.50
        , cacheRead := 0.50, cacheReadOver200k := 1.0
        , batchInput := 2.5, batchOutput := 12.5 } }
  , { id := "claude-sonnet-4-6"
    , displayName := "Claude Sonnet 4.6"
    , supportsVision := true
    , pricing := .tiered
        { inputBase := 3.0, inputBaseOver200k := 6.0
        , output := 15.0, outputOver200k := 22.50
        , cacheWrite := 3.75, cacheWriteOver200k := 7.50
        , cacheRead := 0.30, cacheReadOver200k := 0.60
        , batchInput := 1.5, batchOutput := 7.5 } }
  , { id := "claude-haiku-4-5-20251001"
    , displayName := "Claude Haiku 4.5"
    , supportsVision := true
    , pricing := .flat
        { inputBase := 1.0, output := 5.0
        , cacheWrite := 1.25, cacheRead := 0.10
        , batchInput := 0.5, batchOutput := 2.5 } } ]

/-- `ANTHROPIC_ALIASES`. -/
def ANTHROPIC_ALIASES : List (String × String) :=
  [ ("claude-opus-4-latest", "claude-opus-4-6")
  , ("claude-sonnet-4-latest", "claude-sonnet-4-6")
  , ("claude-haiku-4-5", "claude-haiku-4-5-20251001") ]

/-- `resolveAnthropicModelName`: `ANTHROPIC_ALIASES.get(modelName) ?? modelName`. -/
def resolveAnthropicModelName (modelName : String) : String :=
  (ANTHROPIC_ALIASES.lookup modelName).getD modelName

/-- `findAnthropicModel`: resolves, then looks the id up in `ANTHROPIC_MODELS`;
throws `Unknown Anthropic model: <name>. Available: <ids>` on a miss. -/
def findAnthropicModel (modelName : String) :
    Except UnknownModelError AnthropicModelEntry :=
  let resolvedName := resolveAnthropicModelName modelName
  match ANTHROPIC_MODELS.find? (fun m => m.id == resolvedName) with
  | some m => .ok m
  | none => .error ⟨modelName, ANTHROPIC_MODEL_IDS⟩

/-! ## Anthropic cost calculator (src, lib/anthropic cost-calculator) -/

/-- `TIERED_PRICING_THRESHOLD_TOKENS = 200_000`. -/
def TIERED_PRICING_THRESHOLD_TOKENS : ℚ := 200000

/-- `selectInputBaseRate`: over-200k input rate iff tiered and
`inputTokens > 200_000`. -/
def selectInputBaseRate (pricing : AnthropicPricing) (inputTokens : ℚ) : ℚ :=
  match pricing with
  | .tiered p =>
      if inputTokens > TIERED_PRICING_THRESHOLD_TOKENS then p.inputBaseOver200k
      else p.inputBase
  | .flat p => p.inputBase

/-- `selectOutputRate`. -/
def selectOutputRate (pricing : AnthropicPricing) (inputTokens : ℚ) : ℚ :=
  match pricing with
  | .tiered p =>
      if inputTokens > TIERED_PRICING_THRESHOLD_TOKENS then p.outputOver200k
      else p.output
  | .flat p => p.output

/-- `selectCacheWriteRate`. -/
def selectCacheWriteRate (pricing : AnthropicPricing) (inputTokens : ℚ) : ℚ :=
  match pricing with
  | .tiered p =>
      if inputTokens > TIERED_PRICING_THRESHOLD_TOKENS then p.cacheWriteOver200k
      else p.cacheWrite
  | .flat p => p.cacheWrite

/-- `selectCacheReadRate`. -/
def selectCacheReadRate (pricing : AnthropicPricing) (inputTokens : ℚ) : ℚ :=
  match pricing with
  | .tiered p =>
      if inputTokens > TIERED_PRICING_THRESHOLD_TOKENS then p.cacheReadOver200k
      else p.cacheRead
  | .flat p => p.cacheRead

/-- `AnthropicUsage` as it reaches the calculator: `input_tokens` and
`output_tokens` may be absent or non-numeric at runtime (`Option`), the rest
are the optional modifier fields. -/
structure AnthropicUsage where
  input_tokens : Option ℚ
  output_tokens : Option ℚ
  cache_hits : Option ℚ
  cache_writes : Option ℚ
  batch_mode : Bool
  web_search_queries : Option ℚ
deriving Repr, DecidableEq

/-- The usage record after `calculateAnthropicCost` has validated that
`input_tokens` and `output_tokens` are numbers; this is the shape the inner
cost helpers consume. -/
structure AnthropicUsageV where
  input_tokens : ℚ
  output_tokens : ℚ
  cache_hits : Option ℚ
  cache_writes : Option ℚ
  batch_mode : Bool
deriving Repr, DecidableEq

/-- `calculateInputCost`: batch short-circuit, otherwise cache carve-out with
the remainder clamped at zero (`Math.max(0, ...)`) and priced at the selected
input-base rate. -/
def calculateInputCost (pricing : AnthropicPricing) (usage : AnthropicUsageV) : ℚ :=
  let inputTokensInMillions := usage.input_tokens / 1000000
  if usage.batch_mode then
    inputTokensInMillions * pricing.batchInput
  else
    let cacheHitsInMillions := orZero usage.cache_hits / 1000000
    let cacheWritesInMillions := orZero usage.cache_writes / 1000000
    let baseInputTokensInMillions :=
      if truthy usage.cache_hits || truthy usage.cache_writes then
        max 0 (inputTokensInMillions - cacheHitsInMillions - cacheWritesInMillions)
      else inputTokensInMillions
    let cacheCost :=
      if truthy usage.cache_hits || truthy usage.cache_writes then
        cacheHitsInMillions * selectCacheReadRate pricing usage.input_tokens
          + cacheWritesInMillions * selectCacheWriteRate pricing usage.input_tokens
      else 0
    cacheCost + baseInputTokensInMillions * selectInputBaseRate pricing usage.input_tokens

/-- `calculateOutputCost`. -/
def calculateOutputCost (pricing : AnthropicPricing) (usage : AnthropicUsageV) : ℚ :=
  let outputTokensInMillions := usage.output_tokens / 1000000
  if usage.batch_mode then
    outputTokensInMillions * pricing.batchOutput
  else
    outputTokensInMillions * selectOutputRate pricing usage.input_tokens

/-- `calculateWebSearchCost`: `(queries / 1000) * 10.0`. -/
def calculateWebSearchCost (webSearchQueries : ℚ) : ℚ :=
  webSearchQueries / 1000 * 10.0

/-- Return type of `calculateAnthropicCost` (all five fields required). -/
structure AnthropicCostDetails where
  input : ℚ
  output : ℚ
  total : ℚ
  webSearchQueries : ℚ
  webSearchQueryCost : ℚ
deriving Repr, DecidableEq

/-- Errors thrown by `calculateAnthropicCost`: the two
`Missing <field> in usage data` messages, and the unknown-model error
propagated from `findAnthropicModel`. -/
inductive AnthropicCalcError
  | missingUsageField (field : String)
  | unknownModel (err : UnknownModelError)
deriving Repr, DecidableEq

/-- `calculateAnthropicCost`: validates that the token fields are numbers
(sign is NOT checked), resolves and finds the model, prices input/output and
adds the flat web-search surcharge into `total` only. -/
def calculateAnthropicCost (usage : AnthropicUsage) (modelName : String) :
    Except AnthropicCalcError AnthropicCostDetails :=
  match usage.input_tokens with
  | none => .error (.missingUsageField "input_tokens")
  | some inputTok =>
    match usage.output_tokens with
    | none => .error (.missingUsageField "output_tokens")
    | some outputTok =>
      let resolvedName := resolveAnthropicModelName modelName
      match findAnthropicModel resolvedName with
      | .error e => .error (.unknownModel e)
      | .ok modelEntry =>
        let pricing := modelEntry.pricing
        let uv : AnthropicUsageV :=
          { input_tokens := inputTok, output_tokens := outputTok
          , cache_hits := usage.cache_hits, cache_writes := usage.cache_writes
          , batch_mode := usage.batch_mode }
        let input := calculateInputCost pricing uv
        let output := calculateOutputCost pricing uv
        let webSearchQueries := orZero usage.web_search_queries
        let webSearchQueryCost := calculateWebSearchCost webSearchQueries
        .ok { input := input, output := output
            , total := input + output + webSearchQueryCost
            , webSearchQueries := webSearchQueries
            , webSearchQueryCost := webSearchQueryCost }

/-! ## OpenAI model registry (src/lib/models/openai.ts) -/

/-- `OpenAIPricing` of the registry (`input`, `output`, `cached`, all
required). -/
structure OpenAIRegistryPricing where
  input : ℚ
  output : ℚ
  cached : ℚ
deriving Repr, DecidableEq

/-- `OpenAIModelEntry`. -/
structure OpenAIModelEntry where
  id : String
  displayName : String
  supportsVision : Bool
  pricing : OpenAIRegistryPricing
deriving Repr, DecidableEq

/-- `OPENAI_MODEL_IDS`. -/
def OPENAI_MODEL_IDS : List String := ["gpt-5.2", "gpt-5-mini", "gpt-5-nano"]

/-- `OPENAI_MODELS`. -/
def OPENAI_MODELS : List OpenAIModelEntry :=
  [ { id := "gpt-5.2", displayName := "GPT 5.2", supportsVision := true
    , pricing := { input := 1.75, output := 14.0, cached := 0.175 } }
  , { id := "gpt-5-mini", displayName := "GPT 5 Mini", supportsVision := false
    , pricing := { input := 0.25, output := 2.0, cached := 0.025 } }
  , { id := "gpt-5-nano", displayName := "GPT 5 Nano", supportsVision := false
    , pricing := { input := 0.05, output := 0.4, cached := 0.005 } } ]

/-- `OPENAI_ALIASES`. -/
def OPENAI_ALIASES : List (String × String) :=
  [("gpt-5.2-chat-latest", "gpt-5.2")]

/-- The trailing-`-YYYY-MM-DD` test of the anchored date-suffix regex
(dash, four digits, dash, two digits, dash, two digits, end of string),
checked here from the end of the string. -/
def hasDateSuffix (s : String) : Bool :=
  match s.data.reverse with
  | d1 :: d2 :: h1 :: d3 :: d4 :: h2 :: y1 :: y2 :: y3 :: y4 :: h3 :: _ =>
      d1.isDigit && d2.isDigit && h1 == '-' && d3.isDigit && d4.isDigit &&
      h2 == '-' && y1.isDigit && y2.isDigit && y3.isDigit && y4.isDigit &&
      h3 == '-'
  | _ => false

/-- The `replace` of the anchored date-suffix regex with the empty string:
drop the 11-character date suffix when present. -/
def stripDateSuffix (s : String) : String :=
  if hasDateSuffix s then String.mk (s.data.take (s.data.length - 11)) else s

/-- `resolveOpenAIModelName`: alias table, then alias table after stripping a
date suffix, then a canonical model id after stripping, otherwise the input
unchanged. -/
def resolveOpenAIModelName (modelName : String) : String :=
  match OPENAI_ALIASES.lookup modelName with
  | some fromAlias => fromAlias
  | none =>
    let withoutDateSuffix := stripDateSuffix modelName
    match OPENAI_ALIASES.lookup withoutDateSuffix with
    | some fromAliasAfterNormalize => fromAliasAfterNormalize
    | none =>
      match OPENAI_MODELS.find? (fun m => m.id == withoutDateSuffix) with
      | some matchesKnownModel => matchesKnownModel.id
      | none => modelName

/-- `findOpenAIModel`: resolves, then looks the id up in `OPENAI_MODELS`;
throws `Unknown OpenAI model: <name>. Available: <ids>` on a miss. -/
def findOpenAIModel (modelName : String) :
    Except UnknownModelError OpenAIModelEntry :=
  let resolvedName := resolveOpenAIModelName modelName
  match OPENAI_MODELS.find? (fun m => m.id == resolvedName) with
  | some m => .ok m
  | none => .error ⟨modelName, OPENAI_MODEL_IDS⟩

/-! ## Google model registry (src, models/google.ts) -/

/-- `GooglePricing` of the registry (all fields required). -/
structure GoogleRegistryPricing where
  input : ℚ
  output : ℚ
  cacheRead : ℚ
  batchInput : ℚ
  batchOutput : ℚ
deriving Repr, DecidableEq

/-- `GoogleModelEntry`. -/
structure GoogleModelEntry where
  id : String
  displayName : String
  supportsVision : Bool
  pricing : GoogleRegistryPricing
deriving Repr, DecidableEq

/-- `GOOGLE_MODEL_IDS`. -/
def GOOGLE_MODEL_IDS : List String :=
  ["gemini-3.1-pro-preview", "gemini-3-flash-preview"]

/-- `GOOGLE_MODELS`. -/
def GOOGLE_MODELS : List GoogleModelEntry :=
  [ { id := "gemini-3.1-pro-preview", displayName := "Gemini 3.1 Pro Preview"
    , supportsVision := true
    , pricing := { input := 2.0, output := 12.0, cacheRead := 0.2
                 , batchInput := 1.0, batchOutput := 6.0 } }
  , { id := "gemini-3-flash-preview", displayName := "Gemini 3 Flash Preview"
    , supportsVision := true
    , pricing := { input := 0.5, output := 3.0, cacheRead := 0.05
                 , batchInput := 0.25, batchOutput := 1.5 } } ]

/-- `findGoogleModel`: direct id lookup, no alias resolution; throws
`Unknown Google model: <name>. Available: <ids>` on a miss. -/
def findGoogleModel (modelName : String) :
    Except UnknownModelError GoogleModelEntry :=
  match GOOGLE_MODELS.find? (fun m => m.id == modelName) with
  | some m => .ok m
  | none => .error ⟨modelName, GOOGLE_MODEL_IDS⟩

/-! ## Shared `CostDetails` type (src/lib/types.ts): the web-search fields are
optional and only produced by the OpenAI calculator. -/

/-- `CostDetails`. -/
structure CostDetails where
  input : ℚ
  output : ℚ
  total : ℚ
  webSearchQueries : Option ℚ
  webSearchQueryCost : Option ℚ
deriving Repr, DecidableEq

/-! ## OpenAI cost calculator (src/lib/openai/cost-calculator.ts) -/

namespace OpenAICalc

/-- `OpenAITokenPricing` of the calculator: `cached` is optional. -/
structure OpenAITokenPricing where
  input : ℚ
  cached : Option ℚ
  output : ℚ
deriving Repr, DecidableEq

/-- `Object.values(OpenAIModel)`, in declaration order of the enum. -/
def OpenAIModelValues : List String :=
  [ "gpt-5.1", "gpt-5.1-chat-latest", "gpt-5", "gpt-5-mini", "gpt-5-nano"
  , "gpt-5-chat-latest", "gpt-4.5-preview", "gpt-4.1", "gpt-4.1-mini"
  , "gpt-4.1-nano", "gpt-4o", "gpt-4o-mini", "gpt-4o-audio-preview"
  , "gpt-4o-realtime-preview", "gpt-4o-mini-audio-preview"
  , "gpt-4o-mini-realtime-preview", "o1", "o1-mini", "o1-pro", "o3", "o3-mini"
  , "o3-pro", "o4-mini", "o3-deep-research", "o4-mini-deep-research"
  , "computer-use-preview", "gpt-image-1", "codex-mini-latest"
  , "gpt-4o-mini-search-preview", "gpt-4o-search-preview", "gpt-3.5-turbo" ]

/-- `PRICING` of the OpenAI calculator, in source order. -/
def PRICING : List (String × OpenAITokenPricing) :=
  [ ("gpt-5.1", { input := 1.25, cached := some 0.125, output := 10.0 })
  , ("gpt-5.1-chat-latest", { input := 1.25, cached := some 0.125, output := 10.0 })
  , ("gpt-5", { input := 1.25, cached := some 0.125, output := 10.0 })
  , ("gpt-5-mini", { input := 0.25, cached := some 0.025, output := 2.0 })
  , ("gpt-5-nano", { input := 0.05, cached := some 0.005, output := 0.4 })
  , ("gpt-5-chat-latest", { input := 1.25, cached := some 0.125, output := 10.0 })
  , ("gpt-4.5-preview", { input := 75.0, cached := none, output := 150.0 })
  , ("gpt-4.1", { input := 2.0, cached := some 0.5, output := 8.0 })
  , ("gpt-4.1-mini", { input := 0.4, cached := some 0.1, output := 1.6 })
  , ("gpt-4.1-nano", { input := 0.1, cached := some 0.025, output := 0.4 })
  , ("gpt-4o", { input := 2.5, cached := some 1.25, output := 10.0 })
  , ("gpt-4o-mini", { input := 0.15, cached := some 0.075, output := 0.6 })
  , ("gpt-4o-audio-preview", { input := 2.5, cached := none, output := 10.0 })
  , ("gpt-4o-realtime-preview", { input := 5.0, cached := some 2.5, output := 20.0 })
  , ("gpt-4o-mini-audio-preview", { input := 0.15, cached := none, output := 0.6 })
  , ("gpt-4o-mini-realtime-preview", { input := 0.6, cached := some 0.3, output := 2.4 })
  , ("gpt-4o-mini-search-preview", { input := 0.15, cached := none, output := 0.6 })
  , ("gpt-4o-search-preview", { input := 2.5, cached := none, output := 10.0 })
  , ("o1", { input := 15.0, cached := some 7.5, output := 60.0 })
  , ("o1-mini", { input := 1.1, cached := some 0.55, output := 4.4 })
  , ("o1-pro", { input := 150.0, cached := none, output := 600.0 })
  , ("o3", { input := 2.0, cached := some 0.5, output := 8.0 })
  , ("o3-mini", { input := 1.1, cached := some 0.55, output := 4.4 })
  , ("o3-pro", { input := 20.0, cached := none, output := 80.0 })
  , ("o4-mini", { input := 1.1, cached := some 0.275, output := 4.4 })
  , ("o3-deep-research", { input := 10.0, cached := some 2.5, output := 40.0 })
  , ("o4-mini-deep-research", { input := 2.0, cached := some 0.5, output := 8.0 })
  , ("computer-use-preview", { input := 3.0, cached := none, output := 12.0 })
  , ("gpt-image-1", { input := 5.0, cached := some 1.25, output := 0.0 })
  , ("codex-mini-latest", { input := 1.5, cached := some 0.375, output := 6.0 })
  , ("gpt-3.5-turbo", { input := 0.5, cached := none, output := 1.5 }) ]

/-- `normalizeModel` of the OpenAI calculator: enum pass-through, then
lowercased prefix/equality checks in source order, otherwise the input
unchanged. -/
def normalizeModel (model : String) : String :=
  if OpenAIModelValues.contains model then model
  else
    let modelLower := jsToLower model
    if jsStartsWith modelLower "o4-mini-deep-research" then "o4-mini-deep-research"
    else if jsStartsWith modelLower "o3-deep-research" then "o3-deep-research"
    else if jsStartsWith modelLower "gpt-4.5" then "gpt-4.5-preview"
    else if modelLower == "gpt-5.1-chat-latest" then "gpt-5.1-chat-latest"
    else if modelLower == "gpt-5.1" then "gpt-5.1"
    else if modelLower == "gpt-5-chat-latest" then "gpt-5-chat-latest"
    else if modelLower == "gpt-5-mini" then "gpt-5-mini"
    else if modelLower == "gpt-5-nano" then "gpt-5-nano"
    else if modelLower == "gpt-5" then "gpt-5"
    else if modelLower == "gpt-4o-mini" then "gpt-4o-mini"
    else if modelLower == "gpt-4o" then "gpt-4o"
    else if modelLower == "o1-mini" then "o1-mini"
    else if modelLower == "o1-pro" then "o1-pro"
    else if modelLower == "o1" then "o1"
    else if modelLower == "o3-pro" then "o3-pro"
    else if modelLower == "o3" then "o3"
    else if modelLower == "o4-mini" then "o4-mini"
    else if jsStartsWith modelLower "gpt-3.5-turbo" then "gpt-3.5-turbo"
    else model

/-- `OpenAIUsage = GenericUsage & optional modifiers`; the token fields may be
absent or non-numeric at runtime. -/
structure OpenAIUsage where
  prompt_tokens : Option ℚ
  completion_tokens : Option ℚ
  total_tokens : Option ℚ
  cached_tokens : Option ℚ
  reasoning_tokens : Option ℚ
  web_search_tokens : Option ℚ
  web_search_queries : Option ℚ
deriving Repr, DecidableEq

/-- Errors thrown by `calculateOpenAICost`, with the data each message
interpolates: `Model is required`, `Invalid <field>: ...`,
`Unknown model: <model> (normalized: <normalized>). Available models: <ids>`,
`Invalid calculated <field> cost: ...`. -/
inductive OpenAICalcError
  | missingModel
  | invalidUsage (field : String)
  | unknownModel (attempted : String) (normalized : String) (available : List String)
  | invalidComputedCost (field : String)
deriving Repr, DecidableEq

/-- `calculateOpenAICost`: validates model and token fields (non-number or
negative rejected), normalizes the model, prices input with an optional
cached-token split (no clamping of the non-cached remainder), prices web
search tokens at the input rate and web search queries at a per-1000-query
rate, rounds every reported field to 6 decimals, and throws when a computed
cost is negative. -/
def calculateOpenAICost (model : String) (usage : OpenAIUsage) :
    Except OpenAICalcError CostDetails :=
  if model == "" then .error .missingModel
  else
    match usage.prompt_tokens with
    | none => .error (.invalidUsage "prompt_tokens")
    | some promptTokens =>
      if promptTokens < 0 then .error (.invalidUsage "prompt_tokens")
      else
        match usage.completion_tokens with
        | none => .error (.invalidUsage "completion_tokens")
        | some completionTokens =>
          if completionTokens < 0 then .error (.invalidUsage "completion_tokens")
          else
            let normalizedModel := normalizeModel model
            match PRICING.lookup normalizedModel with
            | none => .error (.unknownModel model normalizedModel (PRICING.map Prod.fst))
            | some pricing =>
              let promptTokensInMillions := promptTokens / 1000000
              let completionTokensInMillions := completionTokens / 1000000
              let cachedTokensInMillions := orZero usage.cached_tokens / 1000000
              let inputCost :=
                if cachedTokensInMillions > 0 ∧ pricing.cached.isSome then
                  (promptTokensInMillions - cachedTokensInMillions) * pricing.input
                    + cachedTokensInMillions * (pricing.cached.getD 0)
                else promptTokensInMillions * pricing.input
              let outputCost := completionTokensInMillions * pricing.output
              let webSearchTokenCost :=
                if truthy usage.web_search_tokens then
                  orZero usage.web_search_tokens / 1000000 * pricing.input
                else 0
              let queryPricePerThousand : ℚ :=
                if normalizedModel == "gpt-4o-mini-search-preview" then 25.0
                else if normalizedModel == "gpt-4o-search-preview" then 30.0
                else 30.0
              let webSearchQueryCost :=
                if truthy usage.web_search_queries then
                  orZero usage.web_search_queries / 1000 * queryPricePerThousand
                else 0
              let totalCost := inputCost + outputCost + webSearchTokenCost + webSearchQueryCost
              let rInput := round6 (inputCost + webSearchTokenCost)
              let rOutput := round6 outputCost
              let rTotal := round6 totalCost
              if rInput < 0 then .error (.invalidComputedCost "input")
              else if rOutput < 0 then .error (.invalidComputedCost "output")
              else if rTotal < 0 then .error (.invalidComputedCost "total")
              else
                .ok { input := rInput, output := rOutput, total := rTotal
                    , webSearchQueries := some (orZero usage.web_search_queries)
                    , webSearchQueryCost := some (round6 webSearchQueryCost) }

end OpenAICalc

/-! ## Google cost calculator (src/lib/google/cost-calculator.ts) -/

namespace GoogleCalc

/-- `GoogleTokenPricing` of the calculator: `cacheRead`, `batchInput` and
`batchOutput` are optional. -/
structure GoogleTokenPricing where
  input : ℚ
  output : ℚ
  cacheRead : Option ℚ
  batchInput : Option ℚ
  batchOutput : Option ℚ
deriving Repr, DecidableEq

/-- `PRICING` of the Google calculator, in source order. -/
def PRICING : List (String × GoogleTokenPricing) :=
  [ ("gemini-3-pro-preview",
      { input := 2.0, output := 12.0, cacheRead := some 0.2
      , batchInput := some 1.0, batchOutput := some 6.0 })
  , ("gemini-2.5-pro",
      { input := 1.25, output := 10.0, cacheRead := some 0.125
      , batchInput := some 0.625, batchOutput := some 5.0 })
  , ("gemini-2.5-flash",
      { input := 0.3, output := 2.5, cacheRead := some 0.03
      , batchInput := some 0.15, batchOutput := some 1.25 })
  , ("gemini-2.5-flash-preview-09-2025",
      { input := 0.3, output := 2.5, cacheRead := some 0.03
      , batchInput := some 0.15, batchOutput := some 1.25 })
  , ("gemini-2.5-flash-lite",
      { input := 0.1, output := 0.4, cacheRead := some 0.01
      , batchInput := some 0.05, batchOutput := some 0.2 })
  , ("gemini-2.5-flash-lite-preview-09-2025",
      { input := 0.1, output := 0.4, cacheRead := some 0.01
      , batchInput := some 0.05, batchOutput := some 0.2 })
  , ("gemini-2.0-flash",
      { input := 0.1, output := 0.4, cacheRead := some 0.025
      , batchInput := some 0.05, batchOutput := some 0.2 })
  , ("gemini-2.0-flash-001",
      { input := 0.1, output := 0.4, cacheRead := some 0.025
      , batchInput := some 0.05, batchOutput := some 0.2 })
  , ("gemini-2.0-flash-exp",
      { input := 0.1, output := 0.4, cacheRead := some 0.025
      , batchInput := some 0.05, batchOutput := some 0.2 })
  , ("gemini-2.0-flash-lite",
      { input := 0.075, output := 0.3, cacheRead := none
      , batchInput := some 0.0375, batchOutput := some 0.15 })
  , ("gemini-2.0-flash-lite-001",
      { input := 0.075, output := 0.3, cacheRead := none
      , batchInput := some 0.0375, batchOutput := some 0.15 })
  , ("gemini-2.0-flash-lite-preview",
      { input := 0.075, output := 0.3, cacheRead := none
      , batchInput := some 0.0375, batchOutput := some 0.15 })
  , ("gemini-2.0-flash-lite-preview-02-05",
      { input := 0.075, output := 0.3, cacheRead := none
      , batchInput := some 0.0375, batchOutput := some 0.15 })
  , ("gemini-2.5-computer-use-preview-10-2025",
      { input := 1.25, output := 10.0, cacheRead := none
      , batchInput := none, batchOutput := none })
  , ("gemini-robotics-er-1.5-preview",
      { input := 0.3, output := 2.5, cacheRead := none
      , batchInput := none, batchOutput := none })
  , ("gemini-exp-1206",
      { input := 1.25, output := 10.0, cacheRead := some 0.125
      , batchInput := some 0.625, batchOutput := some 5.0 })
  , ("gemini-flash-latest",
      { input := 0.3, output := 2.5, cacheRead := some 0.03
      , batchInput := some 0.15, batchOutput := some 1.25 })
  , ("gemini-flash-lite-latest",
      { input := 0.1, output := 0.4, cacheRead := some 0.01
      , batchInput := some 0.05, batchOutput := some 0.2 })
  , ("gemini-pro-latest",
      { input := 1.25, output := 10.0, cacheRead := some 0.125
      , batchInput := some 0.625, batchOutput := some 5.0 })
  ]

/-- `MODEL_ALIASES` of the Google calculator. -/
def MODEL_ALIASES : List (String × String) :=
  [ ("gemini-2.5-pro-latest", "gemini-2.5-pro")
  , ("gemini-2.5-flash-latest", "gemini-2.5-flash")
  , ("gemini-2.0-flash-latest", "gemini-2.0-flash") ]

/-- `resolveModelName` of the Google calculator:
`MODEL_ALIASES[modelName] || modelName`. -/
def resolveModelName (modelName : String) : String :=
  (MODEL_ALIASES.lookup modelName).getD modelName

/-- Errors thrown by `calculateGoogleCost` / `getModelPricing`. -/
inductive GoogleCalcError
  | missingModel
  | invalidUsage (field : String)
  | unknownModel (attempted : String)
  | invalidComputedCost (field : String)
deriving Repr, DecidableEq

/-- `getModelPricing`: resolve the alias, look up `PRICING`; throws
`Unknown Google model: <name>` on a miss. -/
def getModelPricing (modelName : String) : Except GoogleCalcError GoogleTokenPricing :=
  let resolvedName := resolveModelName modelName
  match PRICING.lookup resolvedName with
  | some pricing => .ok pricing
  | none => .error (.unknownModel modelName)

/-- `GoogleUsage`; the token fields may be absent or non-numeric at runtime. -/
structure GoogleUsage where
  prompt_tokens : Option ℚ
  completion_tokens : Option ℚ
  cached_tokens : Option ℚ
  batch_mode : Bool
deriving Repr, DecidableEq

/-- `calculateGoogleCost`: validates model and token fields (non-number or
negative rejected), resolves pricing, then batch rates when `batch_mode` and
the model offers them, else a cached-token split (no clamping), else flat
rates; rounds to 6 decimals and throws when a computed cost is negative. -/
def calculateGoogleCost (model : String) (usage : GoogleUsage) :
    Except GoogleCalcError CostDetails :=
  if model == "" then .error .missingModel
  else
    match usage.prompt_tokens with
    | none => .error (.invalidUsage "prompt_tokens")
    | some promptTokens =>
      if promptTokens < 0 then .error (.invalidUsage "prompt_tokens")
      else
        match usage.completion_tokens with
        | none => .error (.invalidUsage "completion_tokens")
        | some completionTokens =>
          if completionTokens < 0 then .error (.invalidUsage "completion_tokens")
          else
            match getModelPricing model with
            | .error e => .error e
            | .ok pricing =>
              let inputTokensInMillions := promptTokens / 1000000
              let outputTokensInMillions := completionTokens / 1000000
              let cachedTokensInMillions := orZero usage.cached_tokens / 1000000
              let inputCost :=
                if usage.batch_mode ∧ pricing.batchInput.isSome then
                  inputTokensInMillions * pricing.batchInput.getD 0
                else if cachedTokensInMillions > 0 ∧ pricing.cacheRead.isSome then
                  (inputTokensInMillions - cachedTokensInMillions) * pricing.input
                    + cachedTokensInMillions * pricing.cacheRead.getD 0
                else inputTokensInMillions * pricing.input
              let outputCost :=
                if usage.batch_mode ∧ pricing.batchOutput.isSome then
                  outputTokensInMillions * pricing.batchOutput.getD 0
                else outputTokensInMillions * pricing.output
              let rInput := round6 inputCost
              let rOutput := round6 outputCost
              let rTotal := round6 (inputCost + outputCost)
              if rInput < 0 then .error (.invalidComputedCost "input")
              else if rOutput < 0 then .error (.invalidComputedCost "output")
              else if rTotal < 0 then .error (.invalidComputedCost "total")
              else
                .ok { input := rInput, output := rOutput, total := rTotal
                    , webSearchQueries := none, webSearchQueryCost := none }

end GoogleCalc

/-! ## Perplexity cost calculator (src/lib/perplexity/cost-calculator.ts) -/

namespace PerplexityCalc

/-- The `search_context_size` enum. -/
inductive SearchContextSize
  | low
  | medium
  | high
deriving Repr, DecidableEq

/-- A `low`/`medium`/`high` rate record of the Perplexity pricing matrix. -/
structure ContextRates where
  low : ℚ
  medium : ℚ
  high : ℚ
deriving Repr, DecidableEq

/-- Rate selection by context-size bucket
(`pricing.input[searchContextSize]`). -/
def ContextRates.get (r : ContextRates) : SearchContextSize → ℚ
  | .low => r.low
  | .medium => r.medium
  | .high => r.high

/-- One entry of the Perplexity `PRICING` matrix; `reasoning` only exists on
the deep-research entry. -/
structure PerplexityPricingEntry where
  input : ContextRates
  output : ContextRates
  perRequest : ContextRates
  reasoning : Option ℚ
deriving Repr, DecidableEq

/-- `keyof typeof PRICING`: the five model families. -/
inductive PerplexityFamily
  | sonar
  | sonarPro
  | sonarReasoning
  | sonarReasoningPro
  | sonarDeepResearch
deriving Repr, DecidableEq

/-- `PRICING` of the Perplexity calculator (dollars per 1k tokens). -/
def PRICING : PerplexityFamily → PerplexityPricingEntry
  | .sonar =>
      { input := ⟨0.001, 0.001, 0.001⟩, output := ⟨0.001, 0.001, 0.001⟩
      , perRequest := ⟨0.005, 0.008, 0.012⟩, reasoning := none }
  | .sonarPro =>
      { input := ⟨0.003, 0.003, 0.003⟩, output := ⟨0.015, 0.015, 0.015⟩
      , perRequest := ⟨0.006, 0.01, 0.014⟩, reasoning := none }
  | .sonarReasoning =>
      { input := ⟨0.001, 0.001, 0.001⟩, output := ⟨0.005, 0.005, 0.005⟩
      , perRequest := ⟨0.005, 0.008, 0.012⟩, reasoning := none }
  | .sonarReasoningPro =>
      { input := ⟨0.002, 0.002, 0.002⟩, output := ⟨0.008, 0.008, 0.008⟩
      , perRequest := ⟨0.006, 0.01, 0.014⟩, reasoning := none }
  | .sonarDeepResearch =>
      { input := ⟨0.002, 0.002, 0.002⟩, output := ⟨0.008, 0.008, 0.008⟩
      , perRequest := ⟨0.005, 0.005, 0.005⟩, reasoning := some 0.003 }

/-- `normalizeModel` of the Perplexity calculator: longest-first lowercased
prefix match over the five families. -/
def normalizeModel (model : String) : Option PerplexityFamily :=
  let m := jsToLower model
  if jsStartsWith m "sonar-deep-research" then some .sonarDeepResearch
  else if jsStartsWith m "sonar-reasoning-pro" then some .sonarReasoningPro
  else if jsStartsWith m "sonar-reasoning" then some .sonarReasoning
  else if jsStartsWith m "sonar-pro" then some .sonarPro
  else if jsStartsWith m "sonar" then some .sonar
  else none

/-- `PerplexityUsage`: the token fields are typed required numbers and the
calculator performs no runtime validation on them; `search_context_size` may
be absent (`usage.search_context_size || "low"`). -/
structure PerplexityUsage where
  prompt_tokens : ℚ
  completion_tokens : ℚ
  total_tokens : ℚ
  search_context_size : Option SearchContextSize
  reasoning_tokens : Option ℚ
deriving Repr, DecidableEq

/-- The one error thrown by `calculatePerplexityCost`:
`Unknown model: <model>`. -/
inductive PerplexityCalcError
  | unknownModel (attempted : String)
deriving Repr, DecidableEq

/-- `calculatePerplexityCost`: normalizes the family, defaults the context
size to `low`, prices input/output per 1k tokens.  The source accumulates the
deep-research reasoning surcharge into a local `totalCost` variable but then
returns `total: input + output`, leaving `totalCost` unused — mirrored here
verbatim, including the dead binding. -/
def calculatePerplexityCost (model : String) (usage : PerplexityUsage) :
    Except PerplexityCalcError CostDetails :=
  match normalizeModel model with
  | none => .error (.unknownModel model)
  | some modelKey =>
    let pricing := PRICING modelKey
    let searchContextSize := usage.search_context_size.getD .low
    let input := usage.prompt_tokens / 1000 * pricing.input.get searchContextSize
    let output := usage.completion_tokens / 1000 * pricing.output.get searchContextSize
    let _totalCost :=
      if modelKey = .sonarDeepResearch ∧ truthy usage.reasoning_tokens then
        input + output
          + orZero usage.reasoning_tokens / 1000 * (pricing.reasoning.getD 0)
      else input + output
    .ok { input := input, output := output, total := input + output
        , webSearchQueries := none, webSearchQueryCost := none }

end PerplexityCalc

/-! ## Rounding helper lemmas -/

/-- Rounding to 6 decimals moves a value by at most half an ulp. -/
theorem abs_round6_sub_le (q : ℚ) : |round6 q - q| ≤ 1/2000000 := by
  rw [abs_le, round6]
  constructor
  · have h := Int.sub_one_lt_floor (q * 1000000 + 1/2)
    have h2 : (q * 1000000 + 1/2) - 1 < (⌊q * 1000000 + 1/2⌋ : ℚ) := by exact_mod_cast h
    nlinarith
  · have h := Int.floor_le (q * 1000000 + 1/2)
    have h2 : (⌊q * 1000000 + 1/2⌋ : ℚ) ≤ q * 1000000 + 1/2 := by exact_mod_cast h
    nlinarith

/-- Rounding the sum of two summands differs from the sum of the rounded
summands by at most three half-ulps. -/
theorem round6_add2_bound (a b : ℚ) :
    |round6 (a + b) - (round6 a + round6 b)| ≤ 2/1000000 := by
  have h1 := abs_round6_sub_le a
  have h2 := abs_round6_sub_le b
  have h3 := abs_round6_sub_le (a + b)
  rw [abs_le] at h1 h2 h3 ⊢
  constructor <;> nlinarith

/-- Rounded total versus rounded subtotals in the OpenAI shape
(`input` carries the web-search token cost, `output`, query surcharge). -/
theorem round6_total_bound (i o t q : ℚ) :
    |round6 (i + o + t + q) - (round6 (i + t) + round6 o + round6 q)| ≤ 2/1000000 := by
  have h1 := abs_round6_sub_le (i + t)
  have h2 := abs_round6_sub_le o
  have h3 := abs_round6_sub_le q
  have h4 := abs_round6_sub_le (i + o + t + q)
  rw [abs_le] at h1 h2 h3 h4 ⊢
  constructor <;> nlinarith

/-! ## C1 — additivity of the returned breakdown -/

/-- C1, Anthropic part: the returned `total` is exactly
`input + output + webSearchQueryCost` (this calculator does not round). -/
theorem anthropic_total_additive (usage : AnthropicUsage) (modelName : String)
    (r : AnthropicCostDetails)
    (h : calculateAnthropicCost usage modelName = .ok r) :
    r.total = r.input + r.output + r.webSearchQueryCost := by
  simp only [calculateAnthropicCost] at h
  repeat' split at h
  all_goals first
    | exact Except.noConfusion h
    | (rw [Except.ok.injEq] at h
       subst h
       rfl)

set_option maxHeartbeats 1600000 in
/-- C1, OpenAI part: the returned `total` agrees with
`input + output + (webSearchQueryCost ?? 0)` within the tolerance accumulated
by rounding each reported field to 6 decimals separately. -/
theorem openai_total_additive (model : String) (usage : OpenAICalc.OpenAIUsage)
    (r : CostDetails)
    (h : OpenAICalc.calculateOpenAICost model usage = .ok r) :
    |r.total - (r.input + r.output + orZero r.webSearchQueryCost)| ≤ 2/1000000 := by
  simp only [OpenAICalc.calculateOpenAICost] at h
  repeat' split at h
  all_goals first
    | exact Except.noConfusion h
    | (rw [Except.ok.injEq] at h
       subst h
       simp only [orZero, Option.getD]
       exact round6_total_bound _ _ _ _)

set_option maxHeartbeats 800000 in
/-- C1, Google part: the returned `total` agrees with `input + output`
(there is no web-search field) within the rounding tolerance. -/
theorem google_total_additive (model : String) (usage : GoogleCalc.GoogleUsage)
    (r : CostDetails)
    (h : GoogleCalc.calculateGoogleCost model usage = .ok r) :
    |r.total - (r.input + r.output + orZero r.webSearchQueryCost)| ≤ 2/1000000 := by
  simp only [GoogleCalc.calculateGoogleCost] at h
  repeat' split at h
  all_goals first
    | exact Except.noConfusion h
    | (rw [Except.ok.injEq] at h
       subst h
       simp only [orZero, Option.getD, add_zero]
       exact round6_add2_bound _ _)

/-- C1, Perplexity part: the returned `total` is exactly `input + output`
(no rounding, no web-search field). -/
theorem perplexity_total_additive (model : String)
    (usage : PerplexityCalc.PerplexityUsage) (r : CostDetails)
    (h : PerplexityCalc.calculatePerplexityCost model usage = .ok r) :
    r.total = r.input + r.output + orZero r.webSearchQueryCost := by
  simp only [PerplexityCalc.calculatePerplexityCost] at h
  repeat' split at h
  all_goals first
    | exact Except.noConfusion h
    | (rw [Except.ok.injEq] at h
       subst h
       simp [orZero])

/-- C1: for every valid input, each provider calculator returns a breakdown
with `total == input + output + (webSearchQueryCost ?? 0)` within the
6-decimal rounding tolerance — exactly for Anthropic and Perplexity (which
do not round the sum independently), and within `2e-6` for OpenAI and Google
(which round each reported field separately). -/
theorem claim_C1_additivity :
    (∀ (usage : AnthropicUsage) (modelName : String) (r : AnthropicCostDetails),
      calculateAnthropicCost usage modelName = .ok r →
      r.total = r.input + r.output + r.webSearchQueryCost)
    ∧ (∀ (model : String) (usage : OpenAICalc.OpenAIUsage) (r : CostDetails),
      OpenAICalc.calculateOpenAICost model usage = .ok r →
      |r.total - (r.input + r.output + orZero r.webSearchQueryCost)| ≤ 2/1000000)
    ∧ (∀ (model : String) (usage : GoogleCalc.GoogleUsage) (r : CostDetails),
      GoogleCalc.calculateGoogleCost model usage = .ok r →
      |r.total - (r.input + r.output + orZero r.webSearchQueryCost)| ≤ 2/1000000)
    ∧ (∀ (model : String) (usage : PerplexityCalc.PerplexityUsage) (r : CostDetails),
      PerplexityCalc.calculatePerplexityCost model usage = .ok r →
      r.total = r.input + r.output + orZero r.webSearchQueryCost) :=
  ⟨anthropic_total_additive, openai_total_additive,
   google_total_additive, perplexity_total_additive⟩


/-- Concrete usage for the C1 witness, Anthropic: 1M prompt, 500k completion. -/
def c1AnthropicUsage : AnthropicUsage :=
  { input_tokens := some 1000000, output_tokens := some 500000
  , cache_hits := none, cache_writes := none, batch_mode := false
  , web_search_queries := none }

/-- Breakdown returned for `c1AnthropicUsage` on `claude-haiku-4-5`. -/
def c1AnthropicResult : AnthropicCostDetails :=
  { input := 1, output := 5/2, total := 7/2
  , webSearchQueries := 0, webSearchQueryCost := 0 }

/-- Concrete usage for the C1 witness, OpenAI: 1M prompt, 1M completion. -/
def c1OpenAIUsage : OpenAICalc.OpenAIUsage :=
  { prompt_tokens := some 1000000, completion_tokens := some 1000000
  , total_tokens := some 2000000, cached_tokens := none, reasoning_tokens := none
  , web_search_tokens := none, web_search_queries := none }

/-- Breakdown returned for `c1OpenAIUsage` on `gpt-5.1`. -/
def c1OpenAIResult : CostDetails :=
  { input := 1.25, output := 10, total := 11.25
  , webSearchQueries := some 0, webSearchQueryCost := some 0 }

/-- Concrete usage for the C1 witness, Google: 1M prompt, 1M completion. -/
def c1GoogleUsage : GoogleCalc.GoogleUsage :=
  { prompt_tokens := some 1000000, completion_tokens := some 1000000
  , cached_tokens := none, batch_mode := false }

/-- Breakdown returned for `c1GoogleUsage` on `gemini-2.5-pro`. -/
def c1GoogleResult : CostDetails :=
  { input := 1.25, output := 10, total := 11.25
  , webSearchQueries := none, webSearchQueryCost := none }

/-- Concrete usage for the C1 witness, Perplexity: 1k prompt, 1k completion. -/
def c1PerplexityUsage : PerplexityCalc.PerplexityUsage :=
  { prompt_tokens := 1000, completion_tokens := 1000, total_tokens := 2000
  , search_context_size := some .low, reasoning_tokens := none }

/-- Breakdown returned for `c1PerplexityUsage` on `sonar`. -/
def c1PerplexityResult : CostDetails :=
  { input := 0.001, output := 0.001, total := 0.002
  , webSearchQueries := none, webSearchQueryCost := none }

/-- C1 witness: the additivity invariant evaluated on one concrete request per
provider. -/
theorem claim_C1_additivity_witness :
    (calculateAnthropicCost c1AnthropicUsage "claude-haiku-4-5" = .ok c1AnthropicResult
      ∧ c1AnthropicResult.total
          = c1AnthropicResult.input + c1AnthropicResult.output
            + c1AnthropicResult.webSearchQueryCost)
    ∧ (OpenAICalc.calculateOpenAICost "gpt-5.1" c1OpenAIUsage = .ok c1OpenAIResult
      ∧ |c1OpenAIResult.total
          - (c1OpenAIResult.input + c1OpenAIResult.output
            + orZero c1OpenAIResult.webSearchQueryCost)| ≤ 2/1000000)
    ∧ (GoogleCalc.calculateGoogleCost "gemini-2.5-pro" c1GoogleUsage = .ok c1GoogleResult
      ∧ |c1GoogleResult.total
          - (c1GoogleResult.input + c1GoogleResult.output
            + orZero c1GoogleResult.webSearchQueryCost)| ≤ 2/1000000)
    ∧ (PerplexityCalc.calculatePerplexityCost "sonar" c1PerplexityUsage = .ok c1PerplexityResult
      ∧ c1PerplexityResult.total
          = c1PerplexityResult.input + c1PerplexityResult.output
            + orZero c1PerplexityResult.webSearchQueryCost) := by
  have hA : calculateAnthropicCost c1AnthropicUsage "claude-haiku-4-5"
      = .ok c1AnthropicResult := by
    simp only [c1AnthropicUsage, c1AnthropicResult, calculateAnthropicCost,
      findAnthropicModel, resolveAnthropicModelName, ANTHROPIC_ALIASES,
      ANTHROPIC_MODELS, ANTHROPIC_MODEL_IDS, calculateInputCost,
      calculateOutputCost, calculateWebSearchCost, selectInputBaseRate,
      selectOutputRate, selectCacheReadRate, selectCacheWriteRate, truthy,
      orZero, List.lookup, AnthropicPricing.batchInput,
      AnthropicPricing.batchOutput, List.find?, String.reduceBEq,
      String.reduceEq, Option.getD]
    norm_num
  have hO : OpenAICalc.calculateOpenAICost "gpt-5.1" c1OpenAIUsage
      = .ok c1OpenAIResult := by
    simp only [c1OpenAIUsage, c1OpenAIResult, OpenAICalc.calculateOpenAICost,
      OpenAICalc.normalizeModel, OpenAICalc.OpenAIModelValues,
      OpenAICalc.PRICING, truthy, orZero, round6, List.lookup, List.contains,
      List.elem, String.reduceBEq, String.reduceEq, Option.getD, Option.isSome]
    norm_num [round6]
  have hG : GoogleCalc.calculateGoogleCost "gemini-2.5-pro" c1GoogleUsage
      = .ok c1GoogleResult := by
    simp only [c1GoogleUsage, c1GoogleResult, GoogleCalc.calculateGoogleCost,
      GoogleCalc.getModelPricing, GoogleCalc.resolveModelName,
      GoogleCalc.MODEL_ALIASES, GoogleCalc.PRICING, truthy, orZero, round6,
      List.lookup, String.reduceBEq, String.reduceEq, Option.getD, Option.isSome]
    norm_num [round6]
  have hP : PerplexityCalc.calculatePerplexityCost "sonar" c1PerplexityUsage
      = .ok c1PerplexityResult := by
    simp +decide [c1PerplexityUsage, c1PerplexityResult,
      PerplexityCalc.calculatePerplexityCost, PerplexityCalc.normalizeModel,
      PerplexityCalc.PRICING, PerplexityCalc.ContextRates.get, jsToLower,
      jsStartsWith, truthy, orZero, String.reduceBEq, String.reduceEq,
      Option.getD]
    norm_num
  exact ⟨⟨hA, claim_C1_additivity.1 _ _ _ hA⟩,
         ⟨hO, claim_C1_additivity.2.1 _ _ _ hO⟩,
         ⟨hG, claim_C1_additivity.2.2.1 _ _ _ hG⟩,
         ⟨hP, claim_C1_additivity.2.2.2 _ _ _ hP⟩⟩

/-! ## C2 — the 200k tiering boundary -/

/-- C2: for tiered Anthropic pricing, every rate dimension (input base,
output, cache write, cache read) selects the base-tier rate at
`promptTokens = 200000` and the over-200k rate at `promptTokens = 200001` —
an exact all-or-nothing boundary keyed purely on the prompt size. -/
theorem claim_C2_tiering_boundary (p : AnthropicTieredPricing) :
    (selectInputBaseRate (.tiered p) 200000 = p.inputBase
      ∧ selectOutputRate (.tiered p) 200000 = p.output
      ∧ selectCacheWriteRate (.tiered p) 200000 = p.cacheWrite
      ∧ selectCacheReadRate (.tiered p) 200000 = p.cacheRead)
    ∧ (selectInputBaseRate (.tiered p) 200001 = p.inputBaseOver200k
      ∧ selectOutputRate (.tiered p) 200001 = p.outputOver200k
      ∧ selectCacheWriteRate (.tiered p) 200001 = p.cacheWriteOver200k
      ∧ selectCacheReadRate (.tiered p) 200001 = p.cacheReadOver200k) := by
  refine ⟨⟨?_, ?_, ?_, ?_⟩, ⟨?_, ?_, ?_, ?_⟩⟩ <;>
    norm_num [selectInputBaseRate, selectOutputRate, selectCacheWriteRate,
      selectCacheReadRate, TIERED_PRICING_THRESHOLD_TOKENS]



/-! ## C3 — batch mode wins and cache fields are ignored -/

/-- Rounding preserves non-negativity. -/
theorem round6_nonneg {q : ℚ} (h : 0 ≤ q) : 0 ≤ round6 q := by
  unfold round6
  have h2 : (0:ℚ) ≤ ⌊q * 1000000 + 1/2⌋ := by
    exact_mod_cast Int.floor_nonneg.mpr (by nlinarith : (0:ℚ) ≤ q * 1000000 + 1/2)
  exact div_nonneg h2 (by norm_num)

/-- C3, Anthropic input: under batch mode the input cost is the batch
formula, independent of the cache fields. -/
theorem anthropic_batch_input (p : AnthropicPricing) (u : AnthropicUsageV)
    (hb : u.batch_mode = true) :
    calculateInputCost p u = u.input_tokens / 1000000 * p.batchInput := by
  simp [calculateInputCost, hb]

/-- C3, Anthropic output: under batch mode the output cost is the batch
formula. -/
theorem anthropic_batch_output (p : AnthropicPricing) (u : AnthropicUsageV)
    (hb : u.batch_mode = true) :
    calculateOutputCost p u = u.output_tokens / 1000000 * p.batchOutput := by
  simp [calculateOutputCost, hb]

/-- C3, Anthropic: under batch mode the whole breakdown is invariant under
the cache fields. -/
theorem anthropic_batch_cache_ignored (usage : AnthropicUsage)
    (modelName : String) (ch cw : Option ℚ) (hb : usage.batch_mode = true) :
    calculateAnthropicCost { usage with cache_hits := ch, cache_writes := cw } modelName
      = calculateAnthropicCost usage modelName := by
  simp only [calculateAnthropicCost, calculateInputCost, calculateOutputCost, hb,
    if_true]

/-- C3, Google: with batch mode set and batch rates present, the breakdown is
exactly the rounded batch formula. -/
theorem google_batch_formula (model : String) (u : GoogleCalc.GoogleUsage)
    (p : GoogleCalc.GoogleTokenPricing) (bi bo pt ct : ℚ)
    (hb : u.batch_mode = true)
    (hfind : GoogleCalc.getModelPricing model = .ok p)
    (hbi : p.batchInput = some bi) (hbo : p.batchOutput = some bo)
    (hbi0 : 0 ≤ bi) (hbo0 : 0 ≤ bo)
    (hpt : u.prompt_tokens = some pt) (hpt0 : 0 ≤ pt)
    (hct : u.completion_tokens = some ct) (hct0 : 0 ≤ ct)
    (hm : model ≠ "") :
    GoogleCalc.calculateGoogleCost model u
      = .ok { input := round6 (pt / 1000000 * bi)
            , output := round6 (ct / 1000000 * bo)
            , total := round6 (pt / 1000000 * bi + ct / 1000000 * bo)
            , webSearchQueries := none, webSearchQueryCost := none } := by
  have hbeq : (model == "") = false := beq_eq_false_iff_ne.mpr hm
  have hin : (0:ℚ) ≤ pt / 1000000 * bi :=
    mul_nonneg (div_nonneg hpt0 (by norm_num)) hbi0
  have hout : (0:ℚ) ≤ ct / 1000000 * bo :=
    mul_nonneg (div_nonneg hct0 (by norm_num)) hbo0
  simp only [GoogleCalc.calculateGoogleCost, hbeq, Bool.false_eq_true,
    if_false, hpt, hct, hfind, hb, hbi, hbo, Option.isSome, Option.getD,
    true_and, if_true, and_true, and_self,
    not_lt.mpr hpt0, not_lt.mpr hct0,
    if_neg (not_lt.mpr hpt0), if_neg (not_lt.mpr hct0),
    if_neg (not_lt.mpr (round6_nonneg hin)),
    if_neg (not_lt.mpr (round6_nonneg hout)),
    if_neg (not_lt.mpr (round6_nonneg (add_nonneg hin hout)))]

/-- C3, Google: with batch mode set and batch rates present, the breakdown is
invariant under the `cached_tokens` field. -/
theorem google_batch_cache_ignored (model : String) (u : GoogleCalc.GoogleUsage)
    (c : Option ℚ) (p : GoogleCalc.GoogleTokenPricing)
    (hb : u.batch_mode = true)
    (hfind : GoogleCalc.getModelPricing model = .ok p)
    (hbi : p.batchInput.isSome = true) (hbo : p.batchOutput.isSome = true) :
    GoogleCalc.calculateGoogleCost model { u with cached_tokens := c }
      = GoogleCalc.calculateGoogleCost model u := by
  simp only [GoogleCalc.calculateGoogleCost, hfind, hb, hbi, hbo, true_and,
    and_self, if_true]

/-- C3: whenever `batch_mode` is set (and, for Google, the model offers batch
rates), the cost is the batch formula on prompt/completion tokens and the
cache fields of the same usage record have no effect on the result. -/
theorem claim_C3_batch_wins :
    (∀ (p : AnthropicPricing) (u : AnthropicUsageV), u.batch_mode = true →
      calculateInputCost p u = u.input_tokens / 1000000 * p.batchInput
      ∧ calculateOutputCost p u = u.output_tokens / 1000000 * p.batchOutput)
    ∧ (∀ (usage : AnthropicUsage) (modelName : String) (ch cw : Option ℚ),
      usage.batch_mode = true →
      calculateAnthropicCost { usage with cache_hits := ch, cache_writes := cw } modelName
        = calculateAnthropicCost usage modelName)
    ∧ (∀ (model : String) (u : GoogleCalc.GoogleUsage)
        (p : GoogleCalc.GoogleTokenPricing) (bi bo pt ct : ℚ),
      u.batch_mode = true →
      GoogleCalc.getModelPricing model = .ok p →
      p.batchInput = some bi → p.batchOutput = some bo →
      0 ≤ bi → 0 ≤ bo →
      u.prompt_tokens = some pt → 0 ≤ pt →
      u.completion_tokens = some ct → 0 ≤ ct →
      model ≠ "" →
      GoogleCalc.calculateGoogleCost model u
        = .ok { input := round6 (pt / 1000000 * bi)
              , output := round6 (ct / 1000000 * bo)
              , total := round6 (pt / 1000000 * bi + ct / 1000000 * bo)
              , webSearchQueries := none, webSearchQueryCost := none })
    ∧ (∀ (model : String) (u : GoogleCalc.GoogleUsage) (c : Option ℚ)
        (p : GoogleCalc.GoogleTokenPricing),
      u.batch_mode = true →
      GoogleCalc.getModelPricing model = .ok p →
      p.batchInput.isSome = true → p.batchOutput.isSome = true →
      GoogleCalc.calculateGoogleCost model { u with cached_tokens := c }
        = GoogleCalc.calculateGoogleCost model u) :=
  ⟨fun p u hb => ⟨anthropic_batch_input p u hb, anthropic_batch_output p u hb⟩,
   anthropic_batch_cache_ignored,
   fun model u p bi bo pt ct hb hfind hbi hbo hbi0 hbo0 hpt hpt0 hct hct0 hm =>
     google_batch_formula model u p bi bo pt ct hb hfind hbi hbo hbi0 hbo0
       hpt hpt0 hct hct0 hm,
   google_batch_cache_ignored⟩



/-- Concrete Anthropic usage for the C3 witness: batch mode with no cache
fields set. -/
def c3AnthropicUsage : AnthropicUsage :=
  { input_tokens := some 1000000, output_tokens := some 1000000
  , cache_hits := none, cache_writes := none, batch_mode := true
  , web_search_queries := none }

/-- Concrete validated Anthropic usage for the C3 witness: batch mode with
cache fields populated. -/
def c3AnthropicUsageV : AnthropicUsageV :=
  { input_tokens := 1000000, output_tokens := 1000000
  , cache_hits := some 300000, cache_writes := some 200000, batch_mode := true }

/-- Concrete Google usage for the C3 witness: batch mode with cached tokens
populated. -/
def c3GoogleUsage : GoogleCalc.GoogleUsage :=
  { prompt_tokens := some 1000000, completion_tokens := some 1000000
  , cached_tokens := none, batch_mode := true }

/-- The flat `claude-haiku-4-5-20251001` pricing, used by the C3 witness. -/
def c3AnthropicFlatPricing : AnthropicFlatPricing :=
  { inputBase := 1.0, output := 5.0
  , cacheWrite := 1.25, cacheRead := 0.10
  , batchInput := 0.5, batchOutput := 2.5 }

/-- The `gemini-2.5-pro` pricing entry, used by the C3 witness. -/
def c3GooglePricing : GoogleCalc.GoogleTokenPricing :=
  { input := 1.25, output := 10.0, cacheRead := some 0.125
  , batchInput := some 0.625, batchOutput := some 5.0 }

/-- C3 witness: batch pricing evaluated on concrete Anthropic and Google
requests carrying cache fields. -/
theorem claim_C3_batch_wins_witness :
    (calculateInputCost (.flat c3AnthropicFlatPricing) c3AnthropicUsageV
      = 1000000 / 1000000 * 0.5)
    ∧ (calculateAnthropicCost
        { c3AnthropicUsage with cache_hits := some 999999, cache_writes := some 123 }
        "claude-sonnet-4-6"
      = calculateAnthropicCost c3AnthropicUsage "claude-sonnet-4-6")
    ∧ (GoogleCalc.calculateGoogleCost "gemini-2.5-pro" c3GoogleUsage
      = .ok { input := round6 (1000000 / 1000000 * 0.625)
            , output := round6 (1000000 / 1000000 * 5.0)
            , total := round6 (1000000 / 1000000 * 0.625 + 1000000 / 1000000 * 5.0)
            , webSearchQueries := none, webSearchQueryCost := none })
    ∧ (GoogleCalc.calculateGoogleCost "gemini-2.5-pro"
        { c3GoogleUsage with cached_tokens := some 400000 }
      = GoogleCalc.calculateGoogleCost "gemini-2.5-pro" c3GoogleUsage) := by
  have hfind : GoogleCalc.getModelPricing "gemini-2.5-pro" = .ok c3GooglePricing := by
    simp only [GoogleCalc.getModelPricing, GoogleCalc.resolveModelName,
      GoogleCalc.MODEL_ALIASES, GoogleCalc.PRICING, c3GooglePricing,
      List.lookup, String.reduceBEq, String.reduceEq, Option.getD]
  have hbatch : c3AnthropicUsageV.batch_mode = true := rfl
  refine ⟨?_, ?_, ?_, ?_⟩
  · have h := (claim_C3_batch_wins.1 (.flat c3AnthropicFlatPricing)
      c3AnthropicUsageV hbatch).1
    simpa [AnthropicPricing.batchInput, c3AnthropicUsageV,
      c3AnthropicFlatPricing] using h
  · exact claim_C3_batch_wins.2.1 c3AnthropicUsage "claude-sonnet-4-6"
      (some 999999) (some 123) rfl
  · exact claim_C3_batch_wins.2.2.1 "gemini-2.5-pro" c3GoogleUsage
      c3GooglePricing 0.625 5.0 1000000 1000000 rfl hfind rfl rfl
      (by norm_num) (by norm_num) rfl (by norm_num) rfl (by norm_num)
      (by decide)
  · exact claim_C3_batch_wins.2.2.2 "gemini-2.5-pro" c3GoogleUsage
      (some 400000) c3GooglePricing rfl hfind rfl rfl



/-! ## C4 — cache counts exceeding the prompt -/

/-- An optional field with positive default-zero value is truthy. -/
theorem truthy_of_orZero_pos (o : Option ℚ) (h : 0 < orZero o) : truthy o = true := by
  cases o with
  | none => simp [orZero] at h
  | some q =>
      simp only [orZero, Option.getD] at h
      simp [truthy, ne_of_gt h]

/-- Shared helper: the Anthropic calculator returns a breakdown whenever both
token fields are numbers and the model is known — no other validation exists
on this path. -/
theorem anthropic_ok_of_valid (u : AnthropicUsage) (modelName : String)
    (it ot : ℚ) (hin : u.input_tokens = some it) (hout : u.output_tokens = some ot)
    (hfind : (findAnthropicModel (resolveAnthropicModelName modelName)).isOk = true) :
    (calculateAnthropicCost u modelName).isOk = true := by
  simp only [calculateAnthropicCost, hin, hout]
  cases hf : findAnthropicModel (resolveAnthropicModelName modelName) with
  | error e => rw [hf] at hfind; simp [Except.isOk, Except.toBool] at hfind
  | ok m => simp [Except.isOk, Except.toBool]

/-- C4, clamp part: in standard (non-batch) mode, once the reported cache
counts exceed the prompt tokens, the non-cached remainder is clamped to zero
and the input cost is just the two cache slices. -/
theorem anthropic_cache_clamp (p : AnthropicPricing) (u : AnthropicUsageV)
    (hb : u.batch_mode = false) (h0 : 0 ≤ u.input_tokens)
    (hch : 0 ≤ orZero u.cache_hits) (hcw : 0 ≤ orZero u.cache_writes)
    (hex : u.input_tokens < orZero u.cache_hits + orZero u.cache_writes) :
    calculateInputCost p u
      = orZero u.cache_hits / 1000000 * selectCacheReadRate p u.input_tokens
        + orZero u.cache_writes / 1000000 * selectCacheWriteRate p u.input_tokens := by
  have hpos : 0 < orZero u.cache_hits ∨ 0 < orZero u.cache_writes := by
    by_contra hcon
    push_neg at hcon
    have hsum : orZero u.cache_hits + orZero u.cache_writes ≤ 0 :=
      add_nonpos hcon.1 hcon.2
    linarith
  have htruthy : (truthy u.cache_hits || truthy u.cache_writes) = true := by
    cases hpos with
    | inl h => simp [truthy_of_orZero_pos _ h]
    | inr h => simp [truthy_of_orZero_pos _ h]
  have hX : u.input_tokens / 1000000 - orZero u.cache_hits / 1000000
      - orZero u.cache_writes / 1000000 ≤ 0 := by linarith
  simp only [calculateInputCost, hb, Bool.false_eq_true, if_false, htruthy,
    if_true, max_eq_left hX, zero_mul, add_zero]

/-- C4, OpenAI no-clamp split: with cached tokens present and a cached rate,
the input pool is split as `(prompt - cached) * input + cached * cachedRate`
with no clamping of the possibly negative remainder; when nothing goes
negative, exactly that unclamped split is returned. -/
theorem openai_cache_split (model : String) (u : OpenAICalc.OpenAIUsage)
    (q w c cr : ℚ) (pricing : OpenAICalc.OpenAITokenPricing)
    (hm : model ≠ "")
    (hp : u.prompt_tokens = some q) (hq0 : 0 ≤ q)
    (hw : u.completion_tokens = some w) (hw0 : 0 ≤ w)
    (hlook : OpenAICalc.PRICING.lookup (OpenAICalc.normalizeModel model) = some pricing)
    (hc : u.cached_tokens = some c) (hc0 : 0 < c)
    (hcr : pricing.cached = some cr)
    (hwst : u.web_search_tokens = none) (hwsq : u.web_search_queries = none)
    (hin0 : 0 ≤ (q / 1000000 - c / 1000000) * pricing.input + c / 1000000 * cr)
    (hout0 : 0 ≤ pricing.output) :
    OpenAICalc.calculateOpenAICost model u
      = .ok { input := round6 ((q / 1000000 - c / 1000000) * pricing.input
                + c / 1000000 * cr)
            , output := round6 (w / 1000000 * pricing.output)
            , total := round6 ((q / 1000000 - c / 1000000) * pricing.input
                + c / 1000000 * cr + w / 1000000 * pricing.output)
            , webSearchQueries := some 0
            , webSearchQueryCost := some (round6 0) } := by
  have hbeq : (model == "") = false := beq_eq_false_iff_ne.mpr hm
  have hcd : c / 1000000 > 0 := by positivity
  have hoc : (0:ℚ) ≤ w / 1000000 * pricing.output :=
    mul_nonneg (div_nonneg hw0 (by norm_num)) hout0
  simp only [OpenAICalc.calculateOpenAICost, hbeq, Bool.false_eq_true, if_false,
    hp, hw, hlook, hc, hcr, hwst, hwsq, truthy, orZero, Option.getD,
    Option.isSome_some, Option.getD_some, eq_self_iff_true, and_true, add_zero,
    if_neg hq0.not_lt, if_neg hw0.not_lt, if_pos hcd,
    if_neg (not_lt.mpr (round6_nonneg hin0)),
    if_neg (not_lt.mpr (round6_nonneg hoc)),
    if_neg (not_lt.mpr (round6_nonneg (add_nonneg hin0 hoc)))]

/-- C4, OpenAI throw: when the unclamped cached split drives the rounded
input cost negative, the call fails with the `Invalid calculated input cost`
error instead of returning a breakdown. -/
theorem openai_cache_negative_throws (model : String) (u : OpenAICalc.OpenAIUsage)
    (q w c cr : ℚ) (pricing : OpenAICalc.OpenAITokenPricing)
    (hm : model ≠ "")
    (hp : u.prompt_tokens = some q) (hq0 : 0 ≤ q)
    (hw : u.completion_tokens = some w) (hw0 : 0 ≤ w)
    (hlook : OpenAICalc.PRICING.lookup (OpenAICalc.normalizeModel model) = some pricing)
    (hc : u.cached_tokens = some c) (hc0 : 0 < c)
    (hcr : pricing.cached = some cr)
    (hwst : u.web_search_tokens = none)
    (hneg : round6 ((q / 1000000 - c / 1000000) * pricing.input
      + c / 1000000 * cr) < 0) :
    OpenAICalc.calculateOpenAICost model u
      = .error (.invalidComputedCost "input") := by
  have hbeq : (model == "") = false := beq_eq_false_iff_ne.mpr hm
  have hcd : c / 1000000 > 0 := by positivity
  simp only [OpenAICalc.calculateOpenAICost, hbeq, Bool.false_eq_true, if_false,
    hp, hw, hlook, hc, hcr, hwst, truthy, orZero, Option.getD,
    Option.isSome_some, Option.getD_some, eq_self_iff_true, and_true, add_zero,
    if_neg hq0.not_lt, if_neg hw0.not_lt, if_pos hcd, if_pos hneg]

/-- C4, Google no-clamp split: outside batch mode, cached tokens are carved
out as `(prompt - cached) * input + cached * cacheRead` with no clamping;
when nothing goes negative, exactly that unclamped split is returned. -/
theorem google_cache_split (model : String) (u : GoogleCalc.GoogleUsage)
    (q w c cr : ℚ) (pricing : GoogleCalc.GoogleTokenPricing)
    (hm : model ≠ "") (hb : u.batch_mode = false)
    (hp : u.prompt_tokens = some q) (hq0 : 0 ≤ q)
    (hw : u.completion_tokens = some w) (hw0 : 0 ≤ w)
    (hfind : GoogleCalc.getModelPricing model = .ok pricing)
    (hc : u.cached_tokens = some c) (hc0 : 0 < c)
    (hcr : pricing.cacheRead = some cr)
    (hin0 : 0 ≤ (q / 1000000 - c / 1000000) * pricing.input + c / 1000000 * cr)
    (hout0 : 0 ≤ pricing.output) :
    GoogleCalc.calculateGoogleCost model u
      = .ok { input := round6 ((q / 1000000 - c / 1000000) * pricing.input
                + c / 1000000 * cr)
            , output := round6 (w / 1000000 * pricing.output)
            , total := round6 ((q / 1000000 - c / 1000000) * pricing.input
                + c / 1000000 * cr + w / 1000000 * pricing.output)
            , webSearchQueries := none, webSearchQueryCost := none } := by
  have hbeq : (model == "") = false := beq_eq_false_iff_ne.mpr hm
  have hcd : c / 1000000 > 0 := by positivity
  have hoc : (0:ℚ) ≤ w / 1000000 * pricing.output :=
    mul_nonneg (div_nonneg hw0 (by norm_num)) hout0
  simp only [GoogleCalc.calculateGoogleCost, hbeq, Bool.false_eq_true, if_false,
    hp, hw, hfind, hb, hc, hcr, orZero, Option.getD, Option.isSome_some,
    Option.getD_some, eq_self_iff_true, false_and, and_true,
    if_neg hq0.not_lt, if_neg hw0.not_lt, if_pos hcd,
    if_neg (not_lt.mpr (round6_nonneg hin0)),
    if_neg (not_lt.mpr (round6_nonneg hoc)),
    if_neg (not_lt.mpr (round6_nonneg (add_nonneg hin0 hoc)))]

/-- C4, Google throw: when the unclamped cached split drives the rounded
input cost negative, the call fails with the `Invalid calculated input cost`
error instead of returning a breakdown. -/
theorem google_cache_negative_throws (model : String) (u : GoogleCalc.GoogleUsage)
    (q w c cr : ℚ) (pricing : GoogleCalc.GoogleTokenPricing)
    (hm : model ≠ "") (hb : u.batch_mode = false)
    (hp : u.prompt_tokens = some q) (hq0 : 0 ≤ q)
    (hw : u.completion_tokens = some w) (hw0 : 0 ≤ w)
    (hfind : GoogleCalc.getModelPricing model = .ok pricing)
    (hc : u.cached_tokens = some c) (hc0 : 0 < c)
    (hcr : pricing.cacheRead = some cr)
    (hneg : round6 ((q / 1000000 - c / 1000000) * pricing.input
      + c / 1000000 * cr) < 0) :
    GoogleCalc.calculateGoogleCost model u
      = .error (.invalidComputedCost "input") := by
  have hbeq : (model == "") = false := beq_eq_false_iff_ne.mpr hm
  have hcd : c / 1000000 > 0 := by positivity
  simp only [GoogleCalc.calculateGoogleCost, hbeq, Bool.false_eq_true, if_false,
    hp, hw, hfind, hb, hc, hcr, orZero, Option.getD, Option.isSome_some,
    Option.getD_some, eq_self_iff_true, false_and, and_true,
    if_neg hq0.not_lt, if_neg hw0.not_lt, if_pos hcd, if_pos hneg]

/-- C4 counterexample: the claim asserts all three cache-aware calculators
tolerate cache counts above the prompt, but the OpenAI and Google
calculators both subtract without clamping: prompt 0 with 1M cached tokens
drives the computed input cost to -1.125 and each call fails with the
`Invalid calculated input cost` error instead of returning a breakdown. -/
theorem claim_C4_counterexample :
    OpenAICalc.calculateOpenAICost "gpt-5.1"
      { prompt_tokens := some 0, completion_tokens := some 0
      , total_tokens := some 1000000, cached_tokens := some 1000000
      , reasoning_tokens := none, web_search_tokens := none
      , web_search_queries := none }
      = .error (.invalidComputedCost "input")
    ∧ GoogleCalc.calculateGoogleCost "gemini-2.5-pro"
      { prompt_tokens := some 0, completion_tokens := some 0
      , cached_tokens := some 1000000, batch_mode := false }
      = .error (.invalidComputedCost "input") := by
  constructor
  · simp only [OpenAICalc.calculateOpenAICost, OpenAICalc.normalizeModel,
      OpenAICalc.OpenAIModelValues, OpenAICalc.PRICING, truthy, orZero, round6,
      List.lookup, List.contains, List.elem, String.reduceBEq, String.reduceEq,
      Option.getD, Option.isSome]
    norm_num [round6]
  · simp only [GoogleCalc.calculateGoogleCost, GoogleCalc.getModelPricing,
      GoogleCalc.resolveModelName, GoogleCalc.MODEL_ALIASES, GoogleCalc.PRICING,
      truthy, orZero, round6, List.lookup, String.reduceBEq, String.reduceEq,
      Option.getD, Option.isSome]
    norm_num [round6]

/-- C4 amended: only the Anthropic calculator has the claimed behaviour —
with numeric token fields and a known model it never throws, and in standard
mode an excess of cache tokens clamps the non-cached remainder to zero; the
OpenAI and Google calculators subtract cached tokens without clamping
(pricing the raw `(prompt - cached)` remainder) and fail with the
invalid-calculated-input-cost error once the rounded input cost goes
negative. -/
theorem claim_C4_amended :
    (∀ (u : AnthropicUsage) (modelName : String) (it ot : ℚ),
      u.input_tokens = some it → u.output_tokens = some ot →
      (findAnthropicModel (resolveAnthropicModelName modelName)).isOk = true →
      (calculateAnthropicCost u modelName).isOk = true)
    ∧ (∀ (p : AnthropicPricing) (u : AnthropicUsageV),
      u.batch_mode = false → 0 ≤ u.input_tokens →
      0 ≤ orZero u.cache_hits → 0 ≤ orZero u.cache_writes →
      u.input_tokens < orZero u.cache_hits + orZero u.cache_writes →
      calculateInputCost p u
        = orZero u.cache_hits / 1000000 * selectCacheReadRate p u.input_tokens
          + orZero u.cache_writes / 1000000 * selectCacheWriteRate p u.input_tokens)
    ∧ (∀ (model : String) (u : OpenAICalc.OpenAIUsage) (q w c cr : ℚ)
        (pricing : OpenAICalc.OpenAITokenPricing),
      model ≠ "" →
      u.prompt_tokens = some q → 0 ≤ q →
      u.completion_tokens = some w → 0 ≤ w →
      OpenAICalc.PRICING.lookup (OpenAICalc.normalizeModel model) = some pricing →
      u.cached_tokens = some c → 0 < c →
      pricing.cached = some cr →
      u.web_search_tokens = none → u.web_search_queries = none →
      0 ≤ (q / 1000000 - c / 1000000) * pricing.input + c / 1000000 * cr →
      0 ≤ pricing.output →
      OpenAICalc.calculateOpenAICost model u
        = .ok { input := round6 ((q / 1000000 - c / 1000000) * pricing.input
                  + c / 1000000 * cr)
              , output := round6 (w / 1000000 * pricing.output)
              , total := round6 ((q / 1000000 - c / 1000000) * pricing.input
                  + c / 1000000 * cr + w / 1000000 * pricing.output)
              , webSearchQueries := some 0
              , webSearchQueryCost := some (round6 0) })
    ∧ (∀ (model : String) (u : OpenAICalc.OpenAIUsage) (q w c cr : ℚ)
        (pricing : OpenAICalc.OpenAITokenPricing),
      model ≠ "" →
      u.prompt_tokens = some q → 0 ≤ q →
      u.completion_tokens = some w → 0 ≤ w →
      OpenAICalc.PRICING.lookup (OpenAICalc.normalizeModel model) = some pricing →
      u.cached_tokens = some c → 0 < c →
      pricing.cached = some cr →
      u.web_search_tokens = none →
      round6 ((q / 1000000 - c / 1000000) * pricing.input + c / 1000000 * cr) < 0 →
      OpenAICalc.calculateOpenAICost model u
        = .error (.invalidComputedCost "input"))
    ∧ (∀ (model : String) (u : GoogleCalc.GoogleUsage) (q w c cr : ℚ)
        (pricing : GoogleCalc.GoogleTokenPricing),
      model ≠ "" → u.batch_mode = false →
      u.prompt_tokens = some q → 0 ≤ q →
      u.completion_tokens = some w → 0 ≤ w →
      GoogleCalc.getModelPricing model = .ok pricing →
      u.cached_tokens = some c → 0 < c →
      pricing.cacheRead = some cr →
      0 ≤ (q / 1000000 - c / 1000000) * pricing.input + c / 1000000 * cr →
      0 ≤ pricing.output →
      GoogleCalc.calculateGoogleCost model u
        = .ok { input := round6 ((q / 1000000 - c / 1000000) * pricing.input
                  + c / 1000000 * cr)
              , output := round6 (w / 1000000 * pricing.output)
              , total := round6 ((q / 1000000 - c / 1000000) * pricing.input
                  + c / 1000000 * cr + w / 1000000 * pricing.output)
              , webSearchQueries := none, webSearchQueryCost := none })
    ∧ (∀ (model : String) (u : GoogleCalc.GoogleUsage) (q w c cr : ℚ)
        (pricing : GoogleCalc.GoogleTokenPricing),
      model ≠ "" → u.batch_mode = false →
      u.prompt_tokens = some q → 0 ≤ q →
      u.completion_tokens = some w → 0 ≤ w →
      GoogleCalc.getModelPricing model = .ok pricing →
      u.cached_tokens = some c → 0 < c →
      pricing.cacheRead = some cr →
      round6 ((q / 1000000 - c / 1000000) * pricing.input + c / 1000000 * cr) < 0 →
      GoogleCalc.calculateGoogleCost model u
        = .error (.invalidComputedCost "input")) :=
  ⟨anthropic_ok_of_valid, anthropic_cache_clamp,
   fun model u q w c cr pricing hm hp hq0 hw hw0 hlook hc hc0 hcr hwst hwsq
       hin0 hout0 =>
     openai_cache_split model u q w c cr pricing hm hp hq0 hw hw0 hlook hc hc0
       hcr hwst hwsq hin0 hout0,
   fun model u q w c cr pricing hm hp hq0 hw hw0 hlook hc hc0 hcr hwst hneg =>
     openai_cache_negative_throws model u q w c cr pricing hm hp hq0 hw hw0
       hlook hc hc0 hcr hwst hneg,
   fun model u q w c cr pricing hm hb hp hq0 hw hw0 hfind hc hc0 hcr hin0
       hout0 =>
     google_cache_split model u q w c cr pricing hm hb hp hq0 hw hw0 hfind hc
       hc0 hcr hin0 hout0,
   fun model u q w c cr pricing hm hb hp hq0 hw hw0 hfind hc hc0 hcr hneg =>
     google_cache_negative_throws model u q w c cr pricing hm hb hp hq0 hw hw0
       hfind hc hc0 hcr hneg⟩

/-- Concrete Anthropic usage for the C4 witness: cache counts exceed the
prompt tokens. -/
def c4AnthropicUsage : AnthropicUsage :=
  { input_tokens := some 100, output_tokens := some 0
  , cache_hits := some 150, cache_writes := some 50, batch_mode := false
  , web_search_queries := none }

/-- Validated form of `c4AnthropicUsage`. -/
def c4AnthropicUsageV : AnthropicUsageV :=
  { input_tokens := 100, output_tokens := 0
  , cache_hits := some 150, cache_writes := some 50, batch_mode := false }

/-- The flat haiku pricing, used by the C4 witness. -/
def c4FlatPricing : AnthropicFlatPricing :=
  { inputBase := 1.0, output := 5.0, cacheWrite := 1.25, cacheRead := 0.10
  , batchInput := 0.5, batchOutput := 2.5 }

/-- The `gpt-5.1` pricing entry, used by the C4 witness. -/
def c4OpenAIPricing : OpenAICalc.OpenAITokenPricing :=
  { input := 1.25, cached := some 0.125, output := 10.0 }

/-- OpenAI usage with 400k of 1M prompt tokens cached, for the C4 witness. -/
def c4OpenAIUsageSplit : OpenAICalc.OpenAIUsage :=
  { prompt_tokens := some 1000000, completion_tokens := some 0
  , total_tokens := some 1000000, cached_tokens := some 400000
  , reasoning_tokens := none, web_search_tokens := none
  , web_search_queries := none }

/-- OpenAI usage whose cached tokens exceed the prompt, for the C4 witness. -/
def c4OpenAIUsageNegative : OpenAICalc.OpenAIUsage :=
  { prompt_tokens := some 0, completion_tokens := some 0
  , total_tokens := some 1000000, cached_tokens := some 1000000
  , reasoning_tokens := none, web_search_tokens := none
  , web_search_queries := none }

/-- The `gemini-2.5-pro` pricing entry, used by the C4 witness. -/
def c4GooglePricing : GoogleCalc.GoogleTokenPricing :=
  { input := 1.25, output := 10.0, cacheRead := some 0.125
  , batchInput := some 0.625, batchOutput := some 5.0 }

/-- Google usage with 400k of 1M prompt tokens cached, for the C4 witness. -/
def c4GoogleUsageSplit : GoogleCalc.GoogleUsage :=
  { prompt_tokens := some 1000000, completion_tokens := some 0
  , cached_tokens := some 400000, batch_mode := false }

/-- Google usage whose cached tokens exceed the prompt, for the C4 witness. -/
def c4GoogleUsageNegative : GoogleCalc.GoogleUsage :=
  { prompt_tokens := some 0, completion_tokens := some 0
  , cached_tokens := some 1000000, batch_mode := false }

/-- C4 witness: every amended conjunct evaluated on a concrete usage —
Anthropic tolerates and clamps, OpenAI and Google split without clamping and
throw once the cached tokens exceed the prompt. -/
theorem claim_C4_amended_witness :
    ((calculateAnthropicCost c4AnthropicUsage "claude-sonnet-4-6").isOk = true)
    ∧ (calculateInputCost (.flat c4FlatPricing) c4AnthropicUsageV
      = orZero c4AnthropicUsageV.cache_hits / 1000000
          * selectCacheReadRate (.flat c4FlatPricing) c4AnthropicUsageV.input_tokens
        + orZero c4AnthropicUsageV.cache_writes / 1000000
          * selectCacheWriteRate (.flat c4FlatPricing) c4AnthropicUsageV.input_tokens)
    ∧ (OpenAICalc.calculateOpenAICost "gpt-5.1" c4OpenAIUsageSplit
      = .ok { input := round6 ((1000000 / 1000000 - 400000 / 1000000)
                  * c4OpenAIPricing.input + 400000 / 1000000 * 0.125)
            , output := round6 (0 / 1000000 * c4OpenAIPricing.output)
            , total := round6 ((1000000 / 1000000 - 400000 / 1000000)
                  * c4OpenAIPricing.input + 400000 / 1000000 * 0.125
                  + 0 / 1000000 * c4OpenAIPricing.output)
            , webSearchQueries := some 0
            , webSearchQueryCost := some (round6 0) })
    ∧ (OpenAICalc.calculateOpenAICost "gpt-5.1" c4OpenAIUsageNegative
      = .error (.invalidComputedCost "input"))
    ∧ (GoogleCalc.calculateGoogleCost "gemini-2.5-pro" c4GoogleUsageSplit
      = .ok { input := round6 ((1000000 / 1000000 - 400000 / 1000000)
                  * c4GooglePricing.input + 400000 / 1000000 * 0.125)
            , output := round6 (0 / 1000000 * c4GooglePricing.output)
            , total := round6 ((1000000 / 1000000 - 400000 / 1000000)
                  * c4GooglePricing.input + 400000 / 1000000 * 0.125
                  + 0 / 1000000 * c4GooglePricing.output)
            , webSearchQueries := none, webSearchQueryCost := none })
    ∧ (GoogleCalc.calculateGoogleCost "gemini-2.5-pro" c4GoogleUsageNegative
      = .error (.invalidComputedCost "input")) := by
  refine ⟨?_, ?_, ?_, ?_, ?_, ?_⟩
  · exact claim_C4_amended.1 c4AnthropicUsage "claude-sonnet-4-6" 100 0 rfl rfl
      (by decide)
  · exact claim_C4_amended.2.1 (.flat c4FlatPricing) c4AnthropicUsageV rfl
      (by norm_num [c4AnthropicUsageV])
      (by norm_num [c4AnthropicUsageV, orZero])
      (by norm_num [c4AnthropicUsageV, orZero])
      (by norm_num [c4AnthropicUsageV, orZero])
  · exact claim_C4_amended.2.2.1 "gpt-5.1" c4OpenAIUsageSplit
      1000000 0 400000 0.125 c4OpenAIPricing (by decide) rfl (by norm_num)
      rfl (by norm_num) rfl rfl (by norm_num) rfl rfl rfl
      (by norm_num [c4OpenAIPricing]) (by norm_num [c4OpenAIPricing])
  · exact claim_C4_amended.2.2.2.1 "gpt-5.1" c4OpenAIUsageNegative
      0 0 1000000 0.125 c4OpenAIPricing (by decide) rfl (by norm_num)
      rfl (by norm_num) rfl rfl (by norm_num) rfl rfl
      (by norm_num [c4OpenAIPricing, round6])
  · exact claim_C4_amended.2.2.2.2.1 "gemini-2.5-pro" c4GoogleUsageSplit
      1000000 0 400000 0.125 c4GooglePricing (by decide) rfl rfl (by norm_num)
      rfl (by norm_num) rfl rfl (by norm_num) rfl
      (by norm_num [c4GooglePricing]) (by norm_num [c4GooglePricing])
  · exact claim_C4_amended.2.2.2.2.2 "gemini-2.5-pro" c4GoogleUsageNegative
      0 0 1000000 0.125 c4GooglePricing (by decide) rfl rfl (by norm_num)
      rfl (by norm_num) rfl rfl (by norm_num) rfl
      (by norm_num [c4GooglePricing, round6])

/-! ## C5 — the deep-research reasoning surcharge never reaches `total` -/

/-- C5: at the spec example (deep-research, context `low`,
`reasoning_tokens = 2000`) the calculator returns `total = input + output`
with NO reasoning surcharge: the source accumulates the surcharge into a
local `totalCost` that is never returned, so the claimed
`total = input + output + 0.006` fails on the code.  This documents the
divergence: the returned total `0.01` is not the claimed `0.016`. -/
theorem claim_C5_reasoning_dropped :
    PerplexityCalc.calculatePerplexityCost "sonar-deep-research"
      { prompt_tokens := 1000, completion_tokens := 1000, total_tokens := 2000
      , search_context_size := some .low, reasoning_tokens := some 2000 }
      = .ok { input := 0.002, output := 0.008, total := 0.01
            , webSearchQueries := none, webSearchQueryCost := none }
    ∧ (0.01 : ℚ) ≠ 0.002 + 0.008 + 2000 / 1000 * 0.003 := by
  constructor
  · simp +decide [PerplexityCalc.calculatePerplexityCost,
      PerplexityCalc.normalizeModel, PerplexityCalc.PRICING,
      PerplexityCalc.ContextRates.get, jsToLower, jsStartsWith, truthy, orZero,
      String.reduceBEq, String.reduceEq, Option.getD]
    norm_num
  · norm_num

/-! ## C6 — usage validation differs per provider -/

/-- C6 counterexample: the Anthropic calculator only checks that the token
fields are numbers; a negative `input_tokens` of -1,000,000 sails through and
produces a negative breakdown instead of the claimed `InvalidUsageError`. -/
theorem claim_C6_counterexample :
    calculateAnthropicCost
      { input_tokens := some (-1000000), output_tokens := some 0
      , cache_hits := none, cache_writes := none, batch_mode := false
      , web_search_queries := none } "claude-haiku-4-5"
      = .ok { input := -1, output := 0, total := -1
            , webSearchQueries := 0, webSearchQueryCost := 0 } := by
  simp only [calculateAnthropicCost, findAnthropicModel,
    resolveAnthropicModelName, ANTHROPIC_ALIASES, ANTHROPIC_MODELS,
    ANTHROPIC_MODEL_IDS, calculateInputCost, calculateOutputCost,
    calculateWebSearchCost, selectInputBaseRate, selectOutputRate,
    selectCacheReadRate, selectCacheWriteRate, truthy, orZero, List.lookup,
    AnthropicPricing.batchInput, AnthropicPricing.batchOutput, List.find?,
    String.reduceBEq, String.reduceEq, Option.getD]
  norm_num

/-- C6, OpenAI prompt validation: an absent, non-numeric or negative
`prompt_tokens` fails with the `Invalid prompt_tokens` error. -/
theorem openai_prompt_validation (model : String) (u : OpenAICalc.OpenAIUsage)
    (hm : model ≠ "")
    (h : u.prompt_tokens = none ∨ ∃ q, u.prompt_tokens = some q ∧ q < 0) :
    OpenAICalc.calculateOpenAICost model u = .error (.invalidUsage "prompt_tokens") := by
  have hbeq : (model == "") = false := beq_eq_false_iff_ne.mpr hm
  rcases h with hnone | ⟨q, hq, hneg⟩
  · simp [OpenAICalc.calculateOpenAICost, hbeq, hnone]
  · simp [OpenAICalc.calculateOpenAICost, hbeq, hq, hneg]

/-- C6, OpenAI completion validation. -/
theorem openai_completion_validation (model : String) (u : OpenAICalc.OpenAIUsage)
    (q : ℚ) (hm : model ≠ "") (hp : u.prompt_tokens = some q) (hq0 : 0 ≤ q)
    (h : u.completion_tokens = none
      ∨ ∃ w, u.completion_tokens = some w ∧ w < 0) :
    OpenAICalc.calculateOpenAICost model u
      = .error (.invalidUsage "completion_tokens") := by
  have hbeq : (model == "") = false := beq_eq_false_iff_ne.mpr hm
  rcases h with hnone | ⟨w, hw, hneg⟩
  · simp [OpenAICalc.calculateOpenAICost, hbeq, hp, hq0.not_lt, hnone]
  · simp [OpenAICalc.calculateOpenAICost, hbeq, hp, hq0.not_lt, hw, hneg]

/-- C6, Google prompt validation. -/
theorem google_prompt_validation (model : String) (u : GoogleCalc.GoogleUsage)
    (hm : model ≠ "")
    (h : u.prompt_tokens = none ∨ ∃ q, u.prompt_tokens = some q ∧ q < 0) :
    GoogleCalc.calculateGoogleCost model u
      = .error (.invalidUsage "prompt_tokens") := by
  have hbeq : (model == "") = false := beq_eq_false_iff_ne.mpr hm
  rcases h with hnone | ⟨q, hq, hneg⟩
  · simp [GoogleCalc.calculateGoogleCost, hbeq, hnone]
  · simp [GoogleCalc.calculateGoogleCost, hbeq, hq, hneg]

/-- C6, Google completion validation. -/
theorem google_completion_validation (model : String) (u : GoogleCalc.GoogleUsage)
    (q : ℚ) (hm : model ≠ "") (hp : u.prompt_tokens = some q) (hq0 : 0 ≤ q)
    (h : u.completion_tokens = none
      ∨ ∃ w, u.completion_tokens = some w ∧ w < 0) :
    GoogleCalc.calculateGoogleCost model u
      = .error (.invalidUsage "completion_tokens") := by
  have hbeq : (model == "") = false := beq_eq_false_iff_ne.mpr hm
  rcases h with hnone | ⟨w, hw, hneg⟩
  · simp [GoogleCalc.calculateGoogleCost, hbeq, hp, hq0.not_lt, hnone]
  · simp [GoogleCalc.calculateGoogleCost, hbeq, hp, hq0.not_lt, hw, hneg]

/-- C6, Anthropic: only presence of the token fields is checked. -/
theorem anthropic_missing_input (u : AnthropicUsage) (modelName : String)
    (h : u.input_tokens = none) :
    calculateAnthropicCost u modelName = .error (.missingUsageField "input_tokens") := by
  simp [calculateAnthropicCost, h]

/-- C6, Anthropic: missing `output_tokens` after a numeric `input_tokens`. -/
theorem anthropic_missing_output (u : AnthropicUsage) (modelName : String)
    (q : ℚ) (hin : u.input_tokens = some q) (h : u.output_tokens = none) :
    calculateAnthropicCost u modelName = .error (.missingUsageField "output_tokens") := by
  simp [calculateAnthropicCost, hin, h]

/-- C6, Perplexity: there is no usage validation at all — any usage record on
a known family yields a breakdown. -/
theorem perplexity_no_validation (model : String)
    (u : PerplexityCalc.PerplexityUsage)
    (h : (PerplexityCalc.normalizeModel model).isSome = true) :
    (PerplexityCalc.calculatePerplexityCost model u).isOk = true := by
  simp only [PerplexityCalc.calculatePerplexityCost]
  cases hn : PerplexityCalc.normalizeModel model with
  | none => rw [hn] at h; simp at h
  | some k => simp [Except.isOk, Except.toBool]

/-- C6 amended: the OpenAI and Google calculators reject an absent,
non-numeric or negative prompt/completion token field with an invalid-usage
error, but the Anthropic calculator checks only that the fields are numbers —
negative counts are accepted and priced — and the Perplexity calculator
performs no usage validation at all. -/
theorem claim_C6_amended :
    (∀ (model : String) (u : OpenAICalc.OpenAIUsage), model ≠ "" →
      (u.prompt_tokens = none ∨ ∃ q, u.prompt_tokens = some q ∧ q < 0) →
      OpenAICalc.calculateOpenAICost model u
        = .error (.invalidUsage "prompt_tokens"))
    ∧ (∀ (model : String) (u : OpenAICalc.OpenAIUsage) (q : ℚ), model ≠ "" →
      u.prompt_tokens = some q → 0 ≤ q →
      (u.completion_tokens = none ∨ ∃ w, u.completion_tokens = some w ∧ w < 0) →
      OpenAICalc.calculateOpenAICost model u
        = .error (.invalidUsage "completion_tokens"))
    ∧ (∀ (model : String) (u : GoogleCalc.GoogleUsage), model ≠ "" →
      (u.prompt_tokens = none ∨ ∃ q, u.prompt_tokens = some q ∧ q < 0) →
      GoogleCalc.calculateGoogleCost model u
        = .error (.invalidUsage "prompt_tokens"))
    ∧ (∀ (model : String) (u : GoogleCalc.GoogleUsage) (q : ℚ), model ≠ "" →
      u.prompt_tokens = some q → 0 ≤ q →
      (u.completion_tokens = none ∨ ∃ w, u.completion_tokens = some w ∧ w < 0) →
      GoogleCalc.calculateGoogleCost model u
        = .error (.invalidUsage "completion_tokens"))
    ∧ (∀ (u : AnthropicUsage) (modelName : String), u.input_tokens = none →
      calculateAnthropicCost u modelName
        = .error (.missingUsageField "input_tokens"))
    ∧ (∀ (u : AnthropicUsage) (modelName : String) (q : ℚ),
      u.input_tokens = some q → u.output_tokens = none →
      calculateAnthropicCost u modelName
        = .error (.missingUsageField "output_tokens"))
    ∧ (∀ (u : AnthropicUsage) (modelName : String) (it ot : ℚ),
      u.input_tokens = some it → u.output_tokens = some ot →
      (findAnthropicModel (resolveAnthropicModelName modelName)).isOk = true →
      (calculateAnthropicCost u modelName).isOk = true)
    ∧ (∀ (model : String) (u : PerplexityCalc.PerplexityUsage),
      (PerplexityCalc.normalizeModel model).isSome = true →
      (PerplexityCalc.calculatePerplexityCost model u).isOk = true) :=
  ⟨openai_prompt_validation, openai_completion_validation,
   google_prompt_validation, google_completion_validation,
   anthropic_missing_input, anthropic_missing_output,
   anthropic_ok_of_valid, perplexity_no_validation⟩

/-- Concrete usages for the C6 witness. -/
def c6OpenAIUsageMissing : OpenAICalc.OpenAIUsage :=
  { prompt_tokens := none, completion_tokens := some 5, total_tokens := some 5
  , cached_tokens := none, reasoning_tokens := none, web_search_tokens := none
  , web_search_queries := none }

/-- OpenAI usage with a negative completion count, for the C6 witness. -/
def c6OpenAIUsageNegative : OpenAICalc.OpenAIUsage :=
  { prompt_tokens := some 5, completion_tokens := some (-3)
  , total_tokens := some 2, cached_tokens := none, reasoning_tokens := none
  , web_search_tokens := none, web_search_queries := none }

/-- Google usage with a negative prompt count, for the C6 witness. -/
def c6GoogleUsageNegative : GoogleCalc.GoogleUsage :=
  { prompt_tokens := some (-1), completion_tokens := some 0
  , cached_tokens := none, batch_mode := false }

/-- Google usage with a missing completion count, for the C6 witness. -/
def c6GoogleUsageMissing : GoogleCalc.GoogleUsage :=
  { prompt_tokens := some 1, completion_tokens := none
  , cached_tokens := none, batch_mode := false }

/-- Anthropic usage with a missing input field, for the C6 witness. -/
def c6AnthropicUsageMissing : AnthropicUsage :=
  { input_tokens := none, output_tokens := some 0
  , cache_hits := none, cache_writes := none, batch_mode := false
  , web_search_queries := none }

/-- Anthropic usage with a missing output field, for the C6 witness. -/
def c6AnthropicUsageMissingOut : AnthropicUsage :=
  { input_tokens := some 7, output_tokens := none
  , cache_hits := none, cache_writes := none, batch_mode := false
  , web_search_queries := none }

/-- Anthropic usage with a negative input count, for the C6 witness. -/
def c6AnthropicUsageNegative : AnthropicUsage :=
  { input_tokens := some (-1000000), output_tokens := some 0
  , cache_hits := none, cache_writes := none, batch_mode := false
  , web_search_queries := none }

/-- Perplexity usage with negative token counts, for the C6 witness. -/
def c6PerplexityUsage : PerplexityCalc.PerplexityUsage :=
  { prompt_tokens := -50, completion_tokens := -10, total_tokens := -60
  , search_context_size := none, reasoning_tokens := none }

/-- C6 witness: each amended conjunct evaluated on a concrete usage record. -/
theorem claim_C6_amended_witness :
    (OpenAICalc.calculateOpenAICost "gpt-5.1" c6OpenAIUsageMissing
      = .error (.invalidUsage "prompt_tokens"))
    ∧ (OpenAICalc.calculateOpenAICost "gpt-5.1" c6OpenAIUsageNegative
      = .error (.invalidUsage "completion_tokens"))
    ∧ (GoogleCalc.calculateGoogleCost "gemini-2.5-pro" c6GoogleUsageNegative
      = .error (.invalidUsage "prompt_tokens"))
    ∧ (GoogleCalc.calculateGoogleCost "gemini-2.5-pro" c6GoogleUsageMissing
      = .error (.invalidUsage "completion_tokens"))
    ∧ (calculateAnthropicCost c6AnthropicUsageMissing "claude-haiku-4-5"
      = .error (.missingUsageField "input_tokens"))
    ∧ (calculateAnthropicCost c6AnthropicUsageMissingOut "claude-haiku-4-5"
      = .error (.missingUsageField "output_tokens"))
    ∧ ((calculateAnthropicCost c6AnthropicUsageNegative "claude-haiku-4-5").isOk = true)
    ∧ ((PerplexityCalc.calculatePerplexityCost "sonar" c6PerplexityUsage).isOk = true) :=
  ⟨claim_C6_amended.1 "gpt-5.1" c6OpenAIUsageMissing (by decide) (Or.inl rfl),
   claim_C6_amended.2.1 "gpt-5.1" c6OpenAIUsageNegative 5 (by decide) rfl
     (by norm_num) (Or.inr ⟨-3, rfl, by norm_num⟩),
   claim_C6_amended.2.2.1 "gemini-2.5-pro" c6GoogleUsageNegative (by decide)
     (Or.inr ⟨-1, rfl, by norm_num⟩),
   claim_C6_amended.2.2.2.1 "gemini-2.5-pro" c6GoogleUsageMissing 1 (by decide)
     rfl (by norm_num) (Or.inl rfl),
   claim_C6_amended.2.2.2.2.1 c6AnthropicUsageMissing "claude-haiku-4-5" rfl,
   claim_C6_amended.2.2.2.2.2.1 c6AnthropicUsageMissingOut "claude-haiku-4-5"
     7 rfl rfl,
   claim_C6_amended.2.2.2.2.2.2.1 c6AnthropicUsageNegative "claude-haiku-4-5"
     (-1000000) 0 rfl rfl (by decide),
   claim_C6_amended.2.2.2.2.2.2.2 "sonar" c6PerplexityUsage (by decide)⟩



/-! ## C7 — unknown models surface a structured error, never a default -/

/-- C7, Anthropic: a miss after resolution yields exactly the error carrying
the attempted name and the valid-id list; a hit returns the matching registry
entry, never a default. -/
theorem find_anthropic_characterization (name : String) :
    (ANTHROPIC_MODELS.find? (fun m => m.id == resolveAnthropicModelName name) = none →
      findAnthropicModel name = .error ⟨name, ANTHROPIC_MODEL_IDS⟩)
    ∧ (∀ m, findAnthropicModel name = .ok m →
      m ∈ ANTHROPIC_MODELS ∧ m.id = resolveAnthropicModelName name) := by
  constructor
  · intro h
    simp [findAnthropicModel, h]
  · intro m hm
    simp only [findAnthropicModel] at hm
    cases hf : ANTHROPIC_MODELS.find?
        (fun m => m.id == resolveAnthropicModelName name) with
    | none => rw [hf] at hm; exact absurd hm (by simp)
    | some mm =>
        rw [hf] at hm
        rw [Except.ok.injEq] at hm
        subst hm
        have hp := List.find?_some hf
        exact ⟨List.mem_of_find?_eq_some hf, eq_of_beq hp⟩

/-- C7, OpenAI. -/
theorem find_openai_characterization (name : String) :
    (OPENAI_MODELS.find? (fun m => m.id == resolveOpenAIModelName name) = none →
      findOpenAIModel name = .error ⟨name, OPENAI_MODEL_IDS⟩)
    ∧ (∀ m, findOpenAIModel name = .ok m →
      m ∈ OPENAI_MODELS ∧ m.id = resolveOpenAIModelName name) := by
  constructor
  · intro h
    simp [findOpenAIModel, h]
  · intro m hm
    simp only [findOpenAIModel] at hm
    cases hf : OPENAI_MODELS.find?
        (fun m => m.id == resolveOpenAIModelName name) with
    | none => rw [hf] at hm; exact absurd hm (by simp)
    | some mm =>
        rw [hf] at hm
        rw [Except.ok.injEq] at hm
        subst hm
        have hp := List.find?_some hf
        exact ⟨List.mem_of_find?_eq_some hf, eq_of_beq hp⟩

/-- C7, Google (no alias resolution). -/
theorem find_google_characterization (name : String) :
    (GOOGLE_MODELS.find? (fun m => m.id == name) = none →
      findGoogleModel name = .error ⟨name, GOOGLE_MODEL_IDS⟩)
    ∧ (∀ m, findGoogleModel name = .ok m → m ∈ GOOGLE_MODELS ∧ m.id = name) := by
  constructor
  · intro h
    simp [findGoogleModel, h]
  · intro m hm
    simp only [findGoogleModel] at hm
    cases hf : GOOGLE_MODELS.find? (fun m => m.id == name) with
    | none => rw [hf] at hm; exact absurd hm (by simp)
    | some mm =>
        rw [hf] at hm
        rw [Except.ok.injEq] at hm
        subst hm
        have hp := List.find?_some hf
        exact ⟨List.mem_of_find?_eq_some hf, eq_of_beq hp⟩

/-- C7: for every model name that matches no registry entry after resolution,
each find function returns the unknown-model error carrying the attempted
name and the provider list of valid ids, and a successful lookup only ever
returns the entry whose id equals the resolved name. -/
theorem claim_C7_unknown_model :
    (∀ name : String,
      (ANTHROPIC_MODELS.find? (fun m => m.id == resolveAnthropicModelName name) = none →
        findAnthropicModel name = .error ⟨name, ANTHROPIC_MODEL_IDS⟩)
      ∧ (∀ m, findAnthropicModel name = .ok m →
        m ∈ ANTHROPIC_MODELS ∧ m.id = resolveAnthropicModelName name))
    ∧ (∀ name : String,
      (OPENAI_MODELS.find? (fun m => m.id == resolveOpenAIModelName name) = none →
        findOpenAIModel name = .error ⟨name, OPENAI_MODEL_IDS⟩)
      ∧ (∀ m, findOpenAIModel name = .ok m →
        m ∈ OPENAI_MODELS ∧ m.id = resolveOpenAIModelName name))
    ∧ (∀ name : String,
      (GOOGLE_MODELS.find? (fun m => m.id == name) = none →
        findGoogleModel name = .error ⟨name, GOOGLE_MODEL_IDS⟩)
      ∧ (∀ m, findGoogleModel name = .ok m → m ∈ GOOGLE_MODELS ∧ m.id = name)) :=
  ⟨find_anthropic_characterization, find_openai_characterization,
   find_google_characterization⟩

/-- C7 witness: `not-a-real-model-xyz` produces the structured unknown-model
error for all three providers. -/
theorem claim_C7_unknown_model_witness :
    findAnthropicModel "not-a-real-model-xyz"
      = .error ⟨"not-a-real-model-xyz", ANTHROPIC_MODEL_IDS⟩
    ∧ findOpenAIModel "not-a-real-model-xyz"
      = .error ⟨"not-a-real-model-xyz", OPENAI_MODEL_IDS⟩
    ∧ findGoogleModel "not-a-real-model-xyz"
      = .error ⟨"not-a-real-model-xyz", GOOGLE_MODEL_IDS⟩ :=
  ⟨(claim_C7_unknown_model.1 "not-a-real-model-xyz").1 (by decide),
   (claim_C7_unknown_model.2.1 "not-a-real-model-xyz").1 (by decide),
   (claim_C7_unknown_model.2.2 "not-a-real-model-xyz").1 (by decide)⟩

/-! ## C8 — the two-stage alias-then-date-suffix resolution -/

/-- The resolution algorithm exactly as the claim words it, parametric in the
alias table: exact alias match first, then alias match after stripping a
trailing date suffix, otherwise the input unchanged.  Defined for comparison
against each actual provider resolver. -/
def claimedTwoStageResolve (aliases : List (String × String)) (name : String) : String :=
  match aliases.lookup name with
  | some v => v
  | none =>
    match aliases.lookup (stripDateSuffix name) with
    | some v => v
    | none => name

/-- C8 counterexample: the claim requires every provider to strip a trailing
`-YYYY-MM-DD` and retry the alias table, but the Anthropic resolver is a bare
alias lookup: on `claude-haiku-4-5-2025-10-01` the claimed algorithm resolves
through the `claude-haiku-4-5` alias while the code returns the input
unchanged. -/
theorem claim_C8_counterexample :
    claimedTwoStageResolve ANTHROPIC_ALIASES "claude-haiku-4-5-2025-10-01"
      = "claude-haiku-4-5-20251001"
    ∧ resolveAnthropicModelName "claude-haiku-4-5-2025-10-01"
      = "claude-haiku-4-5-2025-10-01"
    ∧ resolveAnthropicModelName "claude-haiku-4-5-2025-10-01"
      ≠ claimedTwoStageResolve ANTHROPIC_ALIASES "claude-haiku-4-5-2025-10-01" :=
  ⟨by decide, by decide, by decide⟩

/-- C8 amended: only the OpenAI resolver performs date-suffix handling — an
exact alias match, then an alias match after stripping the suffix, then a
canonical model id after stripping, otherwise the input unchanged; the
Anthropic and Google resolvers are exact alias-table lookups that otherwise
return the input unchanged, with no date-suffix stripping. -/
theorem claim_C8_amended :
    (∀ name v, ANTHROPIC_ALIASES.lookup name = some v →
      resolveAnthropicModelName name = v)
    ∧ (∀ name, ANTHROPIC_ALIASES.lookup name = none →
      resolveAnthropicModelName name = name)
    ∧ (∀ name v, GoogleCalc.MODEL_ALIASES.lookup name = some v →
      GoogleCalc.resolveModelName name = v)
    ∧ (∀ name, GoogleCalc.MODEL_ALIASES.lookup name = none →
      GoogleCalc.resolveModelName name = name)
    ∧ (∀ name v, OPENAI_ALIASES.lookup name = some v →
      resolveOpenAIModelName name = v)
    ∧ (∀ name v, OPENAI_ALIASES.lookup name = none →
      OPENAI_ALIASES.lookup (stripDateSuffix name) = some v →
      resolveOpenAIModelName name = v)
    ∧ (∀ name m, OPENAI_ALIASES.lookup name = none →
      OPENAI_ALIASES.lookup (stripDateSuffix name) = none →
      OPENAI_MODELS.find? (fun mm => mm.id == stripDateSuffix name) = some m →
      resolveOpenAIModelName name = m.id)
    ∧ (∀ name, OPENAI_ALIASES.lookup name = none →
      OPENAI_ALIASES.lookup (stripDateSuffix name) = none →
      OPENAI_MODELS.find? (fun mm => mm.id == stripDateSuffix name) = none →
      resolveOpenAIModelName name = name) := by
  refine ⟨?_, ?_, ?_, ?_, ?_, ?_, ?_, ?_⟩
  · intro name v h; simp [resolveAnthropicModelName, h]
  · intro name h; simp [resolveAnthropicModelName, h]
  · intro name v h; simp [GoogleCalc.resolveModelName, h]
  · intro name h; simp [GoogleCalc.resolveModelName, h]
  · intro name v h; simp [resolveOpenAIModelName, h]
  · intro name v h1 h2; simp [resolveOpenAIModelName, h1, h2]
  · intro name m h1 h2 h3; simp [resolveOpenAIModelName, h1, h2, h3]
  · intro name h1 h2 h3; simp [resolveOpenAIModelName, h1, h2, h3]

/-- The `gpt-5-mini` registry entry, used by the C8 witness. -/
def c8OpenAIMiniEntry : OpenAIModelEntry :=
  { id := "gpt-5-mini", displayName := "GPT 5 Mini", supportsVision := false
  , pricing := { input := 0.25, output := 2.0, cached := 0.025 } }

/-- C8 witness: one concrete resolution per stage of the amended statement. -/
theorem claim_C8_amended_witness :
    resolveAnthropicModelName "claude-opus-4-latest" = "claude-opus-4-6"
    ∧ resolveAnthropicModelName "claude-haiku-4-5-2025-10-01"
      = "claude-haiku-4-5-2025-10-01"
    ∧ GoogleCalc.resolveModelName "gemini-2.5-pro-latest" = "gemini-2.5-pro"
    ∧ GoogleCalc.resolveModelName "gemini-2.5-pro" = "gemini-2.5-pro"
    ∧ resolveOpenAIModelName "gpt-5.2-chat-latest" = "gpt-5.2"
    ∧ resolveOpenAIModelName "gpt-5.2-chat-latest-2025-03-01" = "gpt-5.2"
    ∧ resolveOpenAIModelName "gpt-5-mini-2025-01-01" = c8OpenAIMiniEntry.id
    ∧ resolveOpenAIModelName "never-a-model-2025" = "never-a-model-2025" :=
  ⟨claim_C8_amended.1 "claude-opus-4-latest" "claude-opus-4-6" rfl,
   claim_C8_amended.2.1 "claude-haiku-4-5-2025-10-01" rfl,
   claim_C8_amended.2.2.1 "gemini-2.5-pro-latest" "gemini-2.5-pro" rfl,
   claim_C8_amended.2.2.2.1 "gemini-2.5-pro" rfl,
   claim_C8_amended.2.2.2.2.1 "gpt-5.2-chat-latest" "gpt-5.2" rfl,
   claim_C8_amended.2.2.2.2.2.1 "gpt-5.2-chat-latest-2025-03-01" "gpt-5.2"
     rfl rfl,
   claim_C8_amended.2.2.2.2.2.2.1 "gpt-5-mini-2025-01-01" c8OpenAIMiniEntry
     rfl rfl rfl,
   claim_C8_amended.2.2.2.2.2.2.2 "never-a-model-2025" rfl rfl rfl⟩

/-! ## C9 — alias resolution is idempotent -/

/-- C9: resolving a known alias twice equals resolving it once, for every
provider with a resolver (Anthropic and OpenAI registries, Google
calculator). -/
theorem claim_C9_idempotence :
    (∀ x, x ∈ ANTHROPIC_ALIASES.map Prod.fst →
      resolveAnthropicModelName (resolveAnthropicModelName x)
        = resolveAnthropicModelName x)
    ∧ (∀ x, x ∈ OPENAI_ALIASES.map Prod.fst →
      resolveOpenAIModelName (resolveOpenAIModelName x)
        = resolveOpenAIModelName x)
    ∧ (∀ x, x ∈ GoogleCalc.MODEL_ALIASES.map Prod.fst →
      GoogleCalc.resolveModelName (GoogleCalc.resolveModelName x)
        = GoogleCalc.resolveModelName x) := by
  refine ⟨?_, ?_, ?_⟩ <;> decide

/-- C9 witness: idempotence evaluated on one known alias per provider. -/
theorem claim_C9_idempotence_witness :
    resolveAnthropicModelName (resolveAnthropicModelName "claude-opus-4-latest")
      = resolveAnthropicModelName "claude-opus-4-latest"
    ∧ resolveOpenAIModelName (resolveOpenAIModelName "gpt-5.2-chat-latest")
      = resolveOpenAIModelName "gpt-5.2-chat-latest"
    ∧ GoogleCalc.resolveModelName
        (GoogleCalc.resolveModelName "gemini-2.5-pro-latest")
      = GoogleCalc.resolveModelName "gemini-2.5-pro-latest" :=
  ⟨claim_C9_idempotence.1 "claude-opus-4-latest" (by decide),
   claim_C9_idempotence.2.1 "gpt-5.2-chat-latest" (by decide),
   claim_C9_idempotence.2.2 "gemini-2.5-pro-latest" (by decide)⟩

/-! ## C10 — a missing context size defaults to the `low` bucket -/

/-- C10: omitting `search_context_size` does not fail — the calculator
behaves exactly as with `low`, and on every known family it still returns a
breakdown. -/
theorem claim_C10_context_default (model : String)
    (u : PerplexityCalc.PerplexityUsage) (h : u.search_context_size = none) :
    PerplexityCalc.calculatePerplexityCost model u
      = PerplexityCalc.calculatePerplexityCost model
          { u with search_context_size := some .low }
    ∧ ((PerplexityCalc.normalizeModel model).isSome = true →
      (PerplexityCalc.calculatePerplexityCost model u).isOk = true) := by
  constructor
  · simp [PerplexityCalc.calculatePerplexityCost, h]
  · intro hn
    exact perplexity_no_validation model u hn

/-- Perplexity usage with no context size, for the C10 witness. -/
def c10PerplexityUsage : PerplexityCalc.PerplexityUsage :=
  { prompt_tokens := 1000, completion_tokens := 1000, total_tokens := 2000
  , search_context_size := none, reasoning_tokens := none }

/-- C10 witness: the default-to-low behaviour evaluated on `sonar`. -/
theorem claim_C10_context_default_witness :
    (PerplexityCalc.calculatePerplexityCost "sonar" c10PerplexityUsage
      = PerplexityCalc.calculatePerplexityCost "sonar"
          { c10PerplexityUsage with search_context_size := some .low })
    ∧ ((PerplexityCalc.calculatePerplexityCost "sonar" c10PerplexityUsage).isOk
      = true) :=
  ⟨(claim_C10_context_default "sonar" c10PerplexityUsage rfl).1,
   (claim_C10_context_default "sonar" c10PerplexityUsage rfl).2 (by decide)⟩


end SilbaCost
